import Mathlib

/-!
Shallow embedding of the ADM-World control-system core
(`src/jsbgym/control_system/`): the PID controller primitive, the
heading/altitude control subsystems, the flight-path PID subsystem, the
default control interface, and the heading/altitude evaluation harness
(per-tick accumulators, finalization, batch sorting and batch
aggregation).  Machine floats are modelled as exact rationals; Python
dictionaries keyed by JSBSim property identifiers are modelled as
association lists over an inductive key type; functions that can raise
(assertions, `ZeroDivisionError`, `IndexError`) return `Option`.
-/

/-- JSBSim property identifiers used by the control system.  The
`properties` module itself only defines opaque property names; distinct
constants are distinct simulator properties, modelled as constructors. -/
inductive JProp
  | elevator_cmd
  | throttle_cmd
  | mixture_cmd
  | ap_hold_heading
  | ap_heading_setpoint
  | ap_hold_altitude
  | ap_altitude_setpoint
  | ap_hold_straight_and_level
  | do_simple_trim
  deriving DecidableEq, Repr

/-- A command map (Python `dict` of property/value pairs), as an
association list without duplicate keys (assignment replaces). -/
def Cmds := List (JProp × ℚ)

/-- Python `actions[prop] = val`: replace the binding if present,
otherwise append. -/
def setCmd : Cmds → JProp → ℚ → Cmds
  | [], k, v => [(k, v)]
  | (k', v') :: rest, k, v =>
      if k = k' then (k, v) :: rest else (k', v') :: setCmd rest k v

/-- Look a property up in a command map. -/
def getCmd : Cmds → JProp → Option ℚ
  | [], _ => none
  | (k', v') :: rest, k => if k = k' then some v' else getCmd rest k

/-- The slice of simulator state read by the control subsystems
(`SimulationInterface.get_property`). -/
structure SimState where
  sim_time_s : ℚ
  altitude_sl_ft : ℚ
  heading_deg : ℚ
  cas_kts : ℚ
  flight_path : ℚ
  throttle_cmd : ℚ
  load_factor : ℚ
  control_agent_interaction_freq : ℚ

/-- `numpy.clip(x, lo, hi)`. -/
def clip (x lo hi : ℚ) : ℚ := min (max x lo) hi

/-- PIDController (`pid_controller.py`): gains plus the mutable
`_last_error` / `_integral` state. -/
structure PIDController where
  kp : ℚ
  ki : ℚ
  kd : ℚ
  lastError : ℚ := 0
  integral : ℚ := 0

/-- `PIDController.compute(measurement, setpoint, dt)`: returns the
control output and the updated controller state.  Mirrors the source
exactly: the integral is accumulated unconditionally, the derivative
uses the stored `_last_error` and is `0` when `dt == 0`, and (as in the
source) `_last_error` is never written. -/
def PIDController.compute (c : PIDController) (measurement setpoint dt : ℚ) :
    ℚ × PIDController :=
  let error := setpoint - measurement
  let integral := c.integral + error * dt
  let derivative := if dt ≠ 0 then (error - c.lastError) / dt else 0
  (c.kp * error + c.ki * integral + c.kd * derivative,
   { c with integral := integral })

/-- AltitudePIDSubsystem state (`ha_flight_pid.py`): a PID with all
gains hard-coded to zero, plus the previous sample time. -/
structure AltitudePIDSubsystem where
  alt_hold_pid : PIDController := { kp := 0, ki := 0, kd := 0 }
  last_time : Option ℚ := none

/-- `AltitudePIDSubsystem.action(sim, des_alt)`: zero elevator outside
the 100 ft band, the (zero-gain) PID output inside it. -/
def AltitudePIDSubsystem.action (s : AltitudePIDSubsystem) (sim : SimState)
    (des_alt : ℚ) : Cmds × AltitudePIDSubsystem :=
  let actions : Cmds := [(JProp.elevator_cmd, 0)]
  let last_time := s.last_time.getD sim.sim_time_s
  let dt := sim.sim_time_s - last_time
  let (elevator_cmd, pid') :=
    if |des_alt - sim.altitude_sl_ft| < 100 then
      s.alt_hold_pid.compute sim.altitude_sl_ft des_alt dt
    else (0, s.alt_hold_pid)
  (setCmd actions JProp.elevator_cmd elevator_cmd,
   { alt_hold_pid := pid', last_time := some sim.sim_time_s })

/-- `AltitudeHoldSubsystem.action(altitude_setpoint)`. -/
def AltitudeHoldSubsystem.action (altitude_setpoint : ℚ) : Cmds :=
  [(JProp.ap_hold_altitude, 1), (JProp.ap_altitude_setpoint, altitude_setpoint)]

/-- `HeadingHoldSubsystem.action(heading_setpoint)`. -/
def HeadingHoldSubsystem.action (heading_setpoint : ℚ) : Cmds :=
  [(JProp.ap_hold_heading, 1), (JProp.ap_heading_setpoint, heading_setpoint)]

/-- `StraightAndLevelSubsystem.action(armed)`. -/
def StraightAndLevelSubsystem.action (armed : ℚ) : Cmds :=
  [(JProp.ap_hold_straight_and_level, armed)]

/-- The `throttle_cmds` table of
`ManualPropertiesSubsystem.cessna_rpm_to_throttle_cmd`. -/
def throttle_cmds : List ℚ :=
  [0.0, 0.05, 0.1, 0.15, 0.2, 0.25, 0.3, 0.35, 0.4, 0.45, 0.5, 0.55, 0.6,
   0.65, 0.7, 0.75, 0.8, 0.85, 0.9, 0.95, 1.0]

/-- The `rpms` table of the same function. -/
def rpms : List ℚ :=
  [896, 951, 1008, 1069, 1127, 1188, 1253, 1324, 1403, 1490, 1588, 1697,
   1818, 1953, 2103, 2262, 2436, 2611, 2766, 2828, 2845]

/-- The `for i in range(len(rpms)-1)` search loop of
`cessna_rpm_to_throttle_cmd`, over the zipped point list: return the
interpolated value on the first segment `[r1, r2]` containing `rpm`,
`none` (Python `None`) if the loop falls through. -/
def interpPts : List (ℚ × ℚ) → ℚ → Option ℚ
  | (r1, t1) :: (r2, t2) :: ps, rpm =>
      if r1 ≤ rpm ∧ rpm ≤ r2 then
        some (t1 + (t2 - t1) * (rpm - r1) / (r2 - r1))
      else interpPts ((r2, t2) :: ps) rpm
  | _, _ => none

/-- `ManualPropertiesSubsystem.cessna_rpm_to_throttle_cmd(rpm)`:
`1.0` above `rpms[-1] = 2845`, `0.0` below `rpms[0] = 896`, otherwise
piecewise-linear interpolation over the table. -/
def cessna_rpm_to_throttle_cmd (rpm : ℚ) : Option ℚ :=
  if rpm > 2845 then some 1
  else if rpm < 896 then some 0
  else interpPts (rpms.zip throttle_cmds) rpm

/-- FGAPControlSubsystem state (`ha_flight_pid.py`): only a step
counter. -/
structure FGAPControlSubsystem where
  steps : ℕ := 0

/-- `FGAPControlSubsystem.action(sim, des_alt, des_hdg)`: asserts
`des_hdg <= 360` (modelled as `none` on assertion failure; there is no
lower-bound check in the source), merges the heading-hold and
altitude-hold command maps, and picks a throttle from the RPM table
based on the remaining altitude change.  The table lookup returns
`Option`; it is defined on every input actually used (3000, 2300,
1800). -/
def FGAPControlSubsystem.action (s : FGAPControlSubsystem) (sim : SimState)
    (des_alt des_hdg : ℚ) : Option (Cmds × FGAPControlSubsystem) :=
  if des_hdg ≤ 360 then
    let actions : Cmds :=
      (AltitudeHoldSubsystem.action des_alt).foldl
        (fun m p => setCmd m p.1 p.2)
        ((HeadingHoldSubsystem.action des_hdg).foldl
          (fun m p => setCmd m p.1 p.2) [])
    let alt_change := des_alt - sim.altitude_sl_ft
    let rpm : ℚ := if alt_change ≥ 150 then 3000
      else if alt_change ≥ -150 then 2300 else 1800
    match cessna_rpm_to_throttle_cmd rpm with
    | none => none
    | some thr =>
        let actions : Cmds := setCmd actions JProp.throttle_cmd thr
        let actions : Cmds := setCmd actions JProp.mixture_cmd 0.8
        some (actions, { steps := s.steps + 1 })
  else none

/-- FlightPathPIDSubsystem state (`subsystems/rp_flight_pid.py`),
initialized as in `__init__` by the record defaults. -/
structure FlightPathPIDSubsystem where
  flight_path_hold_pid : PIDController := { kp := 0.071, ki := 0.0055, kd := 0 }
  throttle_pid : PIDController := { kp := 0.01, ki := 0.001, kd := 0 }
  min_cmd : ℚ := -0.5
  max_cmd : ℚ := 0.5
  num_steps : ℕ := 0
  target_airspeed : ℚ := 80
  trim_throttle : ℚ := 1
  last_time : Option ℚ := none
  last_trim_fpa : ℚ := -1000

/-- `FlightPathPIDSubsystem.action(sim, des_flight_path)`: elevator is
the negated flight-path PID output clipped to `[min_cmd, max_cmd]`
while `_last_trim_fpa < -999` (the `-1000` sentinel still present),
and `0` otherwise; the auto-throttle adds a clipped increment from an
independent PID targeting `target_airspeed`. -/
def FlightPathPIDSubsystem.action (s : FlightPathPIDSubsystem) (sim : SimState)
    (des_flight_path : ℚ) : Cmds × FlightPathPIDSubsystem :=
  let actions : Cmds := [(JProp.elevator_cmd, 0)]
  let last_time := s.last_time.getD sim.sim_time_s
  let dt := sim.sim_time_s - last_time
  let (fpOut, fpPid) :=
    s.flight_path_hold_pid.compute sim.flight_path des_flight_path dt
  let elevator_cmd :=
    if s.last_trim_fpa < -999 then clip (-fpOut) s.min_cmd s.max_cmd else 0
  let (thrOut, thrPid) :=
    s.throttle_pid.compute sim.cas_kts s.target_airspeed dt
  let throttle := sim.throttle_cmd + clip (thrOut * dt) (-1) 1
  let actions : Cmds := setCmd actions JProp.elevator_cmd elevator_cmd
  let actions : Cmds := setCmd actions JProp.throttle_cmd throttle
  (actions,
   { s with flight_path_hold_pid := fpPid, throttle_pid := thrPid,
            last_time := some sim.sim_time_s, num_steps := s.num_steps + 1 })

/-- Per-tick simulator observations consumed by the evaluation loop of
`HAFlightControlEval.run_single_eval` (the values of
`sim.get_property` after `sim.step(actions)` on that tick). -/
structure SimObs where
  altitude_sl_ft : ℚ
  heading_deg : ℚ
  load_factor : ℚ
  cas_kts : ℚ

/-- The per-trial quantities of `run_single_eval` that the evaluation
accumulators read: the realized setpoints and changes, the maneuver
step budget `max_man_steps`, the maneuver time budget in minutes, and
the initial airspeed in knots (the initial value of `min airspeed`).
In the source `max_man_steps = max_man_time_mins * 60 * 5` and
`interaction_freq = 5`. -/
structure TrialParams where
  des_alt : ℚ
  des_hdg : ℚ
  alt_change : ℚ
  hdg_change : ℚ
  max_man_steps : ℚ
  max_man_time_mins : ℚ
  initial_airspeed_kts : ℚ

/-- The `cur_eval` dictionary of `run_single_eval` (field names mirror
the dictionary keys). -/
structure EvalRecord where
  max_alt_overshoot : ℚ := 0
  max_hdg_overshoot : ℚ := 0
  max_load_factor : ℚ := 0
  avg_load_factor : ℚ := 0
  min_airspeed : ℚ := 0
  max_airspeed : ℚ := -1
  avg_airspeed : ℚ := 0
  avg_alt_steady_state_error : ℚ := 0
  avg_hdg_steady_state_error : ℚ := 0
  time_to_first_contact_s : ℚ := 0
  max_man_time_mins : ℚ := 0
  max_time_mins : ℚ := 0

/-- The initial `cur_eval` of a trial. -/
def initEval (p : TrialParams) : EvalRecord :=
  { min_airspeed := p.initial_airspeed_kts
    max_man_time_mins := p.max_man_time_mins
    max_time_mins := (p.max_man_steps + 90 * 5) / 5 / 60 }

/-- Altitude error of a tick: `abs(des_alt - altitude)`. -/
def altErrorOf (p : TrialParams) (o : SimObs) : ℚ :=
  |p.des_alt - o.altitude_sl_ft|

/-- Heading error of a tick:
`min(abs(des_hdg - heading), 360 - abs(des_hdg - heading))`. -/
def hdgErrorOf (p : TrialParams) (o : SimObs) : ℚ :=
  min |p.des_hdg - o.heading_deg| (360 - |p.des_hdg - o.heading_deg|)

/-- The `Edit max alt overshoot` branch of the per-tick evaluation
update (`run_single_eval` lines 235-238 and `update_eval` lines
144-147): the overshoot maximum moves only when the measured altitude
has crossed past the setpoint in the direction of the commanded
change. -/
def tickAltOvershoot (alt_change des_alt altitude alt_error : ℚ)
    (e : EvalRecord) : EvalRecord :=
  if alt_change < 0 ∧ altitude < des_alt then
    { e with max_alt_overshoot := max e.max_alt_overshoot alt_error }
  else if alt_change > 0 ∧ altitude > des_alt then
    { e with max_alt_overshoot := max e.max_alt_overshoot alt_error }
  else e

/-- The `Edit max hdg overshoot` branch (lines 240-243 resp. 149-152). -/
def tickHdgOvershoot (hdg_change des_hdg heading hdg_error : ℚ)
    (e : EvalRecord) : EvalRecord :=
  if hdg_change < 0 ∧ heading < des_hdg then
    { e with max_hdg_overshoot := max e.max_hdg_overshoot hdg_error }
  else if hdg_change > 0 ∧ heading > des_hdg then
    { e with max_hdg_overshoot := max e.max_hdg_overshoot hdg_error }
  else e

/-- The load-factor and airspeed accumulator lines (245-253 resp.
154-162). -/
def tickSpeedLoad (load_factor cas : ℚ) (e : EvalRecord) : EvalRecord :=
  { e with
    max_load_factor := max e.max_load_factor |load_factor|,
    avg_load_factor := e.avg_load_factor + |load_factor|,
    min_airspeed := min e.min_airspeed cas,
    max_airspeed := max e.max_airspeed cas,
    avg_airspeed := e.avg_airspeed + cas }

/-- The altitude steady-state accumulator (lines 255-256 resp.
164-165): adds the tick's error only when the step counter strictly
exceeds the maneuver step budget. -/
def tickAltSS (num_steps max_man_steps alt_error : ℚ)
    (e : EvalRecord) : EvalRecord :=
  if num_steps > max_man_steps then
    { e with avg_alt_steady_state_error :=
               e.avg_alt_steady_state_error + alt_error }
  else e

/-- The heading steady-state accumulator (lines 258-259 resp.
167-168). -/
def tickHdgSS (num_steps max_man_steps hdg_error : ℚ)
    (e : EvalRecord) : EvalRecord :=
  if num_steps > max_man_steps then
    { e with avg_hdg_steady_state_error :=
               e.avg_hdg_steady_state_error + hdg_error }
  else e

/-- The time-to-first-contact latch (lines 261-263 resp. 170-172):
recorded once, when both errors are inside tolerance and the stored
(falsy) value is still 0. -/
def tickContact (alt_error hdg_error alt_tol hdg_tol time_val : ℚ)
    (e : EvalRecord) : EvalRecord :=
  if alt_error < alt_tol ∧ hdg_error < hdg_tol ∧
      e.time_to_first_contact_s = 0 then
    { e with time_to_first_contact_s := time_val }
  else e

/-- One iteration of the `--> Edit evaluations` block of
`run_single_eval` (lines 232-263), as the sequence of its update
branches: `numSteps` is the value of `num_steps` on that tick; the
tolerances are `ACCEPTABLE_ALTITUDE_ERR = 50` and
`ACCEPTABLE_HEADING_ERR = 7.5`, the contact time is
`num_steps / interaction_freq` with `interaction_freq = 5`. -/
def evalTick (p : TrialParams) (e : EvalRecord) (numSteps : ℕ) (o : SimObs) :
    EvalRecord :=
  tickContact (altErrorOf p o) (hdgErrorOf p o) 50 7.5 ((numSteps : ℚ) / 5)
    (tickHdgSS (numSteps : ℚ) p.max_man_steps (hdgErrorOf p o)
      (tickAltSS (numSteps : ℚ) p.max_man_steps (altErrorOf p o)
        (tickSpeedLoad o.load_factor o.cas_kts
          (tickHdgOvershoot p.hdg_change p.des_hdg o.heading_deg
            (hdgErrorOf p o)
            (tickAltOvershoot p.alt_change p.des_alt o.altitude_sl_ft
              (altErrorOf p o) e)))))

/-- The `while num_steps < max_steps` evaluation loop, folded over the
per-tick observation trace starting at step counter `n`. -/
def evalLoop (p : TrialParams) (e : EvalRecord) (n : ℕ) :
    List SimObs → EvalRecord
  | [] => e
  | o :: rest => evalLoop p (evalTick p e n o) (n + 1) rest

/-- Finalization of `run_single_eval` (lines 299-302): the four running
sums are divided by the final `num_steps`, which equals the number of
loop iterations, i.e. the trace length. -/
def finalizeEval (e : EvalRecord) (numSteps : ℕ) : EvalRecord :=
  { e with avg_airspeed := e.avg_airspeed / (numSteps : ℚ),
           avg_load_factor := e.avg_load_factor / (numSteps : ℚ),
           avg_alt_steady_state_error :=
             e.avg_alt_steady_state_error / (numSteps : ℚ),
           avg_hdg_steady_state_error :=
             e.avg_hdg_steady_state_error / (numSteps : ℚ) }

/-- The evaluation-accumulator portion of
`HAFlightControlEval.run_single_eval` as a function of the observation
trace: run the per-tick updates, then finalize.  (Trajectory recording,
rendering and the random case draws do not feed the accumulators and
are not modelled.) -/
def runSingleEval (p : TrialParams) (trace : List SimObs) : EvalRecord :=
  finalizeEval (evalLoop p (initEval p) 0 trace) trace.length

/-- Sum of the altitude errors of the ticks recorded strictly after the
maneuver step budget, starting the tick counter at `n`. -/
def steadyAltSumFrom (p : TrialParams) (n : ℕ) : List SimObs → ℚ
  | [] => 0
  | o :: rest =>
      (if (n : ℚ) > p.max_man_steps then altErrorOf p o else 0) +
        steadyAltSumFrom p (n + 1) rest

/-- Sum of the heading errors of the ticks recorded strictly after the
maneuver step budget, starting the tick counter at `n`. -/
def steadyHdgSumFrom (p : TrialParams) (n : ℕ) : List SimObs → ℚ
  | [] => 0
  | o :: rest =>
      (if (n : ℚ) > p.max_man_steps then hdgErrorOf p o else 0) +
        steadyHdgSumFrom p (n + 1) rest

/-- Number of steady-state ticks (tick counter strictly above
`max_man_steps`), starting the tick counter at `n`. -/
def steadyCountFrom (p : TrialParams) (n : ℕ) : List SimObs → ℕ
  | [] => 0
  | _ :: rest =>
      (if (n : ℚ) > p.max_man_steps then 1 else 0) +
        steadyCountFrom p (n + 1) rest


/-- Aircraft airspeed limits read by `sort_evals` (`aircraft.py`):
clean stall speed and never-exceed speed. -/
structure Aircraft where
  Vs1 : ℚ
  Vne : ℚ

/-- Python `round` on an exact value: round half to even. -/
def pyRound (q : ℚ) : ℤ :=
  let f := ⌊q⌋
  let r := q - (f : ℚ)
  if r < 1 / 2 then f
  else if 1 / 2 < r then f + 1
  else if 2 ∣ f then f else f + 1

/-- `round_to_nearest(value, base) = round(value / base) * base`. -/
def round_to_nearest (value base : ℚ) : ℚ :=
  (pyRound (value / base) : ℚ) * base

/-- The lexicographic sort key of `sort_evals`: airspeed-envelope
violation, alt steady-state error bucket, alt overshoot bucket, late
contact, load factor bucket. -/
def SortKey := ℕ × ℚ × ℚ × ℕ × ℚ

/-- `eval_sort_key(eval)` from `HAFlightControlEval.sort_evals`,
exactly as in the source: in particular the late-contact threshold is
`eval["max man time mins"] / 60 + 5` with `time to first contact s`
measured in seconds. -/
def eval_sort_key (ac : Aircraft) (e : EvalRecord) : SortKey :=
  ((if e.min_airspeed < ac.Vs1 ∨ e.max_airspeed > ac.Vne then 1 else 0),
   round_to_nearest e.avg_alt_steady_state_error 50,
   round_to_nearest e.max_alt_overshoot 50,
   (if e.time_to_first_contact_s > e.max_man_time_mins / 60 + 5 then 1 else 0),
   round_to_nearest e.max_load_factor (1 / 2))

/-- Lexicographic non-strict order on sort keys (Python tuple
comparison). -/
def keyLE (a b : SortKey) : Prop :=
  a.1 < b.1 ∨ (a.1 = b.1 ∧
    (a.2.1 < b.2.1 ∨ (a.2.1 = b.2.1 ∧
      (a.2.2.1 < b.2.2.1 ∨ (a.2.2.1 = b.2.2.1 ∧
        (a.2.2.2.1 < b.2.2.2.1 ∨ (a.2.2.2.1 = b.2.2.2.1 ∧
          a.2.2.2.2 ≤ b.2.2.2.2)))))))

instance : DecidableRel keyLE := by
  unfold keyLE; exact fun a b => inferInstance

/-- Insert into an ascending list, before the first element that the
new element compares ≤ to: combined with `stableSortLE` this is a
stable ascending sort, agreeing with Python `list.sort(key=...)`. -/
def insertLE {α : Type} (le : α → α → Prop) [DecidableRel le] (x : α) :
    List α → List α
  | [] => [x]
  | y :: ys => if le x y then x :: y :: ys else y :: insertLE le x ys

/-- Stable ascending insertion sort. -/
def stableSortLE {α : Type} (le : α → α → Prop) [DecidableRel le] :
    List α → List α
  | [] => []
  | x :: xs => insertLE le x (stableSortLE le xs)

/-- `HAFlightControlEval.sort_evals`: enumerate the evals, sort
ascending by `eval_sort_key` (stably, as Python's sort), reverse so
index 0 is worst, and return the indices together with the keys. -/
def sort_evals (ac : Aircraft) (evals : List EvalRecord) :
    List ℕ × List SortKey :=
  let indexed := evals.enum
  let sorted := stableSortLE
    (fun a b => keyLE (eval_sort_key ac a.2) (eval_sort_key ac b.2)) indexed
  let rev := sorted.reverse
  (rev.map (fun p => p.1), rev.map (fun p => eval_sort_key ac p.2))

/-- Modelled from the spec: the sort key as the specification words it
(spec 4.5 / claim C3), with "late" meaning time-to-first-contact (in
seconds) exceeds the maneuver time budget (converted to seconds) plus
the fixed 5-second buffer.  Used only to compare the spec's wording
against `eval_sort_key`. -/
def eval_sort_key_specWorded (ac : Aircraft) (e : EvalRecord) : SortKey :=
  ((if e.min_airspeed < ac.Vs1 ∨ e.max_airspeed > ac.Vne then 1 else 0),
   round_to_nearest e.avg_alt_steady_state_error 50,
   round_to_nearest e.max_alt_overshoot 50,
   (if e.time_to_first_contact_s > e.max_man_time_mins * 60 + 5 then 1 else 0),
   round_to_nearest e.max_load_factor (1 / 2))

/-- Modelled from the spec: `sort_evals` with the spec-worded key. -/
def sort_evals_specWorded (ac : Aircraft) (evals : List EvalRecord) :
    List ℕ × List SortKey :=
  let indexed := evals.enum
  let sorted := stableSortLE
    (fun a b =>
      keyLE (eval_sort_key_specWorded ac a.2) (eval_sort_key_specWorded ac b.2))
    indexed
  let rev := sorted.reverse
  (rev.map (fun p => p.1), rev.map (fun p => eval_sort_key_specWorded ac p.2))

/-- The `batch_evals` dictionary of
`HAFlightControlEval.create_batch_eval`. -/
structure BatchEval where
  max_alt_overshoot : ℚ := 0
  max_alt_avg_steady_state_error : ℚ := 0
  avg_alt_steady_state_error : ℚ := 0
  avg_max_alt_overshoot : ℚ := 0
  avg_hdg_steady_state_error : ℚ := 0
  max_hdg_overshoot : ℚ := 0
  avg_time_fufillment : ℚ := 0
  mean_abs_alt_steady_state_error : ℚ := 0

/-- The body of the first `for i in indices` loop of
`create_batch_eval`, applied to the eval record at one index. -/
def batchAccum (b : BatchEval) (r : EvalRecord) : BatchEval :=
  let b : BatchEval := { b with
    max_alt_overshoot := max b.max_alt_overshoot r.max_alt_overshoot,
    max_alt_avg_steady_state_error :=
      max b.max_alt_avg_steady_state_error r.avg_alt_steady_state_error,
    avg_alt_steady_state_error :=
      b.avg_alt_steady_state_error + r.avg_alt_steady_state_error,
    avg_max_alt_overshoot := b.avg_max_alt_overshoot + r.max_alt_overshoot,
    avg_hdg_steady_state_error :=
      b.avg_hdg_steady_state_error + r.avg_hdg_steady_state_error,
    max_hdg_overshoot := max b.max_hdg_overshoot r.max_hdg_overshoot }
  if r.max_man_time_mins ≠ 0 then
    let time_first_c :=
      if r.time_to_first_contact_s = 0 then r.max_man_time_mins * 2 * 60
      else r.time_to_first_contact_s
    { b with avg_time_fufillment :=
        b.avg_time_fufillment + time_first_c / r.max_man_time_mins / 60 }
  else b

/-- `HAFlightControlEval.create_batch_eval(indices)` over the harness's
eval list.  Python raises `IndexError` on an out-of-range index and
`ZeroDivisionError` on an empty index list; both fatal errors are
modelled as `none`. -/
def create_batch_eval (evals : List EvalRecord) (indices : List ℕ) :
    Option BatchEval :=
  (indices.mapM (fun i => evals.get? i)).bind fun recs =>
      if indices.length = 0 then none
      else
        let b := recs.foldl batchAccum {}
        let n : ℚ := (indices.length : ℚ)
        let b : BatchEval := { b with
          avg_alt_steady_state_error := b.avg_alt_steady_state_error / n,
          avg_max_alt_overshoot := b.avg_max_alt_overshoot / n,
          avg_hdg_steady_state_error := b.avg_hdg_steady_state_error / n,
          avg_time_fufillment := b.avg_time_fufillment / n }
        let mad := recs.foldl
          (fun acc r =>
            acc + |r.avg_alt_steady_state_error - b.avg_alt_steady_state_error|)
          0
        some { b with mean_abs_alt_steady_state_error := mad / n }

/-- Penalty-substituted time-fulfillment ratio of one trial: the ratio
of time-to-first-contact to the maneuver time budget, with twice the
budget substituted when contact was never reached (recorded as 0). -/
def timeFulfillRatioOf (r : EvalRecord) : ℚ :=
  (if r.time_to_first_contact_s = 0 then r.max_man_time_mins * 2 * 60
   else r.time_to_first_contact_s) / (r.max_man_time_mins * 60)

/-- Manual-section command names accepted by
`ManualPropertiesSubsystem.convert_to_jsbsim_prop_val` (the wildcard
case warns and produces a no-op, which does not touch the numeric
command map and is not modelled further). -/
inductive ManualName
  | throttle
  | mixture
  deriving DecidableEq, Repr

/-- `ManualPropertiesSubsystem.convert_to_jsbsim_prop_val`: `throttle`
goes through the RPM table (defined for every real input, `getD 0` is
never reached on tabled inputs), `mixture` passes through. -/
def convert_to_jsbsim_prop_val (n : ManualName) (v : ℚ) : JProp × ℚ :=
  match n with
  | .throttle => (JProp.throttle_cmd, (cessna_rpm_to_throttle_cmd v).getD 0)
  | .mixture => (JProp.mixture_cmd, v)

/-- An instruction handed to `ControlInterfaceDefault`: the
`control interface` section with optional altitude / heading /
wings-level entries, and an optional `manual` section. -/
structure Instruction where
  altitude : Option ℚ := none
  heading : Option ℚ := none
  wings_level : Option ℚ := none
  manual : Option (List (ManualName × ℚ)) := none

/-- User-visible warnings emitted by `ControlInterfaceDefault.action`
(`warnings.warn`). -/
inductive CIWarning
  | no_altitude_hold
  | no_heading_hold
  deriving DecidableEq, Repr

/-- Python float `%` for a positive modulus: `a - b * floor(a / b)`. -/
def fmod (a b : ℚ) : ℚ := a - b * (⌊a / b⌋ : ℚ)

/-- ControlInterfaceDefault state after an instruction has been set
(`set_instruction`): the current instruction, per-instruction eval
record and counters, and the inner `FGAPControlSubsystem`. -/
structure ControlInterfaceState where
  current_instruction : Instruction
  cur_eval : EvalRecord := {}
  cur_alt_change : ℚ := 0
  cur_hdg_change : ℚ := 0
  steps_total : ℕ := 0
  instr_steps : ℕ := 0
  max_man_steps : ℚ := 0
  ha : FGAPControlSubsystem := {}

/-- `ControlInterfaceDefault.update_eval(sim, des_alt, des_hdg)`
(thresholds 100 ft / 10 deg; time in `instr_steps` over the simulator's
interaction frequency). -/
def ControlInterfaceState.update_eval (st : ControlInterfaceState)
    (sim : SimState) (des_alt des_hdg : ℚ) : EvalRecord :=
  tickContact (|des_alt - sim.altitude_sl_ft|)
    (min |des_hdg - sim.heading_deg| (360 - |des_hdg - sim.heading_deg|))
    100 10 ((st.instr_steps : ℚ) / sim.control_agent_interaction_freq)
    (tickHdgSS (st.instr_steps : ℚ) st.max_man_steps
      (min |des_hdg - sim.heading_deg| (360 - |des_hdg - sim.heading_deg|))
      (tickAltSS (st.instr_steps : ℚ) st.max_man_steps
        (|des_alt - sim.altitude_sl_ft|)
        (tickSpeedLoad sim.load_factor sim.cas_kts
          (tickHdgOvershoot st.cur_hdg_change des_hdg sim.heading_deg
            (min |des_hdg - sim.heading_deg| (360 - |des_hdg - sim.heading_deg|))
            (tickAltOvershoot st.cur_alt_change des_alt sim.altitude_sl_ft
              (|des_alt - sim.altitude_sl_ft|) st.cur_eval)))))

/-- The `try/except KeyError` block of `ControlInterfaceDefault.action`
resolving the desired altitude: substitute the simulator's current
altitude and warn when the instruction has no altitude entry. -/
def resolve_des_alt (ins : Instruction) (sim : SimState) :
    ℚ × List CIWarning :=
  match ins.altitude with
  | some a => (a, [])
  | none => (sim.altitude_sl_ft, [CIWarning.no_altitude_hold])

/-- The corresponding heading block: a present heading is taken
modulo 360 (Python `%`), an absent one falls back to the simulator's
current heading with a warning. -/
def resolve_des_hdg (ins : Instruction) (sim : SimState) :
    ℚ × List CIWarning :=
  match ins.heading with
  | some h => (fmod h 360, [])
  | none => (sim.heading_deg, [CIWarning.no_heading_hold])

/-- The wings-level section of `ControlInterfaceDefault.action`: armed
with the instruction's value when present, explicitly disarmed (0)
otherwise. -/
def apply_wings (ins : Instruction) (m : Cmds) : Cmds :=
  match ins.wings_level with
  | some w => (StraightAndLevelSubsystem.action w).foldl
      (fun m p => setCmd m p.1 p.2) m
  | none => (StraightAndLevelSubsystem.action 0).foldl
      (fun m p => setCmd m p.1 p.2) m

/-- The manual section: converted entries override everything written
before them. -/
def apply_manual (ins : Instruction) (m : Cmds) : Cmds :=
  match ins.manual with
  | some ms => ms.foldl
      (fun m p =>
        let jp := convert_to_jsbsim_prop_val p.1 p.2
        setCmd m jp.1 jp.2) m
  | none => m

/-- `ControlInterfaceDefault.action(sim)`: resolve the desired altitude
and heading from the current instruction — substituting the simulator's
current value, with a warning, when the field is absent — then merge the
FGAP subsystem commands, the straight-and-level arm/disarm, and the
manual overrides; update the running eval; never fails apart from the
inner `des_hdg <= 360` assertion (`none`).  Returns the command map, the
updated state, and the warnings emitted this tick. -/
def ControlInterfaceState.action (st : ControlInterfaceState) (sim : SimState) :
    Option (Cmds × ControlInterfaceState × List CIWarning) :=
  let ra := resolve_des_alt st.current_instruction sim
  let rh := resolve_des_hdg st.current_instruction sim
  (st.ha.action sim ra.1 rh.1).map fun pr =>
    let actions : Cmds := pr.1.foldl (fun m p => setCmd m p.1 p.2) []
    let actions : Cmds := apply_wings st.current_instruction actions
    let actions : Cmds := apply_manual st.current_instruction actions
    let cur_eval := st.update_eval sim ra.1 rh.1
    (actions,
     { st with cur_eval := cur_eval, ha := pr.2,
               steps_total := st.steps_total + 1,
               instr_steps := st.instr_steps + 1 },
     ra.2 ++ rh.2)

/-- The zipped interpolation table beyond its first two points (a
proof-side name for the tail of `rpms.zip throttle_cmds`). -/
def cessnaPtsTail : List (ℚ × ℚ) :=
  [(1008, 0.1), (1069, 0.15), (1127, 0.2), (1188, 0.25), (1253, 0.3),
   (1324, 0.35), (1403, 0.4), (1490, 0.45), (1588, 0.5), (1697, 0.55),
   (1818, 0.6), (1953, 0.65), (2103, 0.7), (2262, 0.75), (2436, 0.8),
   (2611, 0.85), (2766, 0.9), (2828, 0.95), (2845, 1.0)]

lemma getCmd_setCmd_self (m : Cmds) (k : JProp) (v : ℚ) :
    getCmd (setCmd m k v) k = some v := by
  induction m with
  | nil => simp [setCmd, getCmd]
  | cons p rest ih =>
      obtain ⟨k', v'⟩ := p
      by_cases h : k = k' <;> simp [setCmd, getCmd, h, ih]

lemma getCmd_setCmd_ne (m : Cmds) (k k' : JProp) (v : ℚ) (h : k ≠ k') :
    getCmd (setCmd m k' v) k = getCmd m k := by
  induction m with
  | nil => simp [setCmd, getCmd, h]
  | cons p rest ih =>
      obtain ⟨k'', v''⟩ := p
      by_cases h2 : k' = k''
      · subst h2
        simp [setCmd, getCmd, h]
      · by_cases h3 : k = k'' <;> simp [setCmd, getCmd, h2, h3, ih]

/-- C1: the claim says `compute` returns
`kp*error + ki*integral + kd*derivative` with the integral incremented
by `error*dt` and `derivative = (error - last_error)/dt` — which the
code does — and that after every call the stored `last_error` equals
the error of that call, which the code does not do: `compute` never
writes `_last_error`.  At gains (1,1,1), measurement 3, setpoint 8,
`dt` 1 the error is `5 ≠ 0`, the output and integral are as claimed,
but the stored `last_error` is still its initial `0`. -/
theorem C1_pid_compute_lastError_stale :
    (({ kp := 1, ki := 1, kd := 1 } : PIDController).compute 3 8 1).1 = 15 ∧
    (({ kp := 1, ki := 1, kd := 1 } : PIDController).compute 3 8 1).2.integral = 5 ∧
    (({ kp := 1, ki := 1, kd := 1 } : PIDController).compute 3 8 1).2.lastError = 0 ∧
    ((8 : ℚ) - 3 ≠ 0) := by
  refine ⟨?_, ?_, ?_, by norm_num⟩ <;> norm_num [PIDController.compute]

/-- C10: for every simulator state and desired altitude,
`AltitudePIDSubsystem.action` emits elevator command exactly 0 —
outside the 100 ft band it is set to 0 directly, inside the band the
PID output is 0 because all its gains are 0 — and the gains stay 0, so
this holds on every reachable state of the subsystem (they are
hard-coded to 0 at construction). -/
theorem C10_altitude_pid_zero_elevator (s : AltitudePIDSubsystem)
    (sim : SimState) (des_alt : ℚ) (hkp : s.alt_hold_pid.kp = 0)
    (hki : s.alt_hold_pid.ki = 0) (hkd : s.alt_hold_pid.kd = 0) :
    getCmd (s.action sim des_alt).1 JProp.elevator_cmd = some 0 ∧
    (s.action sim des_alt).2.alt_hold_pid.kp = 0 ∧
    (s.action sim des_alt).2.alt_hold_pid.ki = 0 ∧
    (s.action sim des_alt).2.alt_hold_pid.kd = 0 := by
  unfold AltitudePIDSubsystem.action
  simp only [PIDController.compute, hkp, hki, hkd]
  split <;> simp [setCmd, getCmd] <;> exact ⟨hkp, hki, hkd⟩

/-- C10 witness: a freshly constructed subsystem (all gains 0 by
`__init__`) on a concrete simulator state. -/
theorem C10_altitude_pid_zero_elevator_witness :
    getCmd ((({} : AltitudePIDSubsystem).action
      ⟨0, 5000, 0, 100, 0, 0, 1, 5⟩ 5020).1) JProp.elevator_cmd = some 0 :=
  (C10_altitude_pid_zero_elevator {} ⟨0, 5000, 0, 100, 0, 0, 1, 5⟩ 5020
    rfl rfl rfl).1

lemma fgap_action_eq (s : FGAPControlSubsystem) (sim : SimState)
    (des_alt des_hdg : ℚ) (h : des_hdg ≤ 360) :
    ∃ thr : ℚ, s.action sim des_alt des_hdg =
      some ([(JProp.ap_hold_heading, 1), (JProp.ap_heading_setpoint, des_hdg),
             (JProp.ap_hold_altitude, 1), (JProp.ap_altitude_setpoint, des_alt),
             (JProp.throttle_cmd, thr), (JProp.mixture_cmd, 0.8)],
            { steps := s.steps + 1 }) := by
  by_cases h1 : des_alt - sim.altitude_sl_ft ≥ 150
  · refine ⟨1, ?_⟩
    simp only [FGAPControlSubsystem.action, h1, if_true, ite_true]
    rw [if_pos h]
    rfl
  · by_cases h2 : des_alt - sim.altitude_sl_ft ≥ -150
    · refine ⟨0.75 + (0.8 - 0.75) * (2300 - 2262) / (2436 - 2262), ?_⟩
      simp only [FGAPControlSubsystem.action, h1, h2, if_false, ite_false,
        if_true, ite_true]
      rw [if_pos h]
      rfl
    · refine ⟨0.55 + (0.6 - 0.55) * (1800 - 1697) / (1818 - 1697), ?_⟩
      simp only [FGAPControlSubsystem.action, h1, h2, if_false, ite_false]
      rw [if_pos h]
      rfl

/-- C5 (amended): the assertion in `FGAPControlSubsystem.action` checks
only the upper bound: it fires exactly when the desired heading exceeds
360 (there is no lower-bound check, so negative headings are accepted).
For every desired heading at most 360 — in particular every heading in
[0, 360] — every tick returns a command map carrying the
autopilot-heading armed flag set to 1 and the heading setpoint exactly
equal to the desired heading, unmodified, for any subsystem state and
simulator state (hence zero drift, e.g. at 330). -/
theorem C5_fgap_heading_setpoint (s : FGAPControlSubsystem) (sim : SimState)
    (des_alt des_hdg : ℚ) :
    (360 < des_hdg → s.action sim des_alt des_hdg = none) ∧
    (des_hdg ≤ 360 → ∃ cmds s', s.action sim des_alt des_hdg = some (cmds, s') ∧
      getCmd cmds JProp.ap_hold_heading = some 1 ∧
      getCmd cmds JProp.ap_heading_setpoint = some des_hdg) := by
  constructor
  · intro hgt
    unfold FGAPControlSubsystem.action
    rw [if_neg (not_le.mpr hgt)]
  · intro hle
    obtain ⟨thr, hEq⟩ := fgap_action_eq s sim des_alt des_hdg hle
    exact ⟨_, _, hEq, by simp [getCmd], by simp [getCmd]⟩

/-- C5 witness: at desired heading 330 (inside [0, 360]) against a
simulator reporting heading 330, the returned map has the armed flag 1
and setpoint exactly 330. -/
theorem C5_fgap_heading_setpoint_witness :
    (330 : ℚ) ≤ 360 ∧
    ∃ cmds s', FGAPControlSubsystem.action {} ⟨0, 5000, 330, 100, 0, 0, 1, 5⟩
        5000 330 = some (cmds, s') ∧
      getCmd cmds JProp.ap_hold_heading = some 1 ∧
      getCmd cmds JProp.ap_heading_setpoint = some 330 :=
  ⟨by norm_num,
   (C5_fgap_heading_setpoint {} ⟨0, 5000, 330, 100, 0, 0, 1, 5⟩ 5000 330).2
     (by norm_num)⟩

/-- C5 counterexample: the claim as stated — an assertion error for
every desired heading outside [0, 360] — is false: desired heading -10
is outside [0, 360], yet the call succeeds (the source asserts only
`des_hdg <= 360`). -/
theorem C5_fgap_no_lower_bound_counterexample :
    ((-10 : ℚ) < 0 ∨ (360 : ℚ) < -10) ∧
    (FGAPControlSubsystem.action {} ⟨0, 5000, 350, 100, 0, 0, 1, 5⟩
      5000 (-10)).isSome = true := by
  refine ⟨Or.inl (by norm_num), ?_⟩
  obtain ⟨thr, hEq⟩ := fgap_action_eq {} ⟨0, 5000, 350, 100, 0, 0, 1, 5⟩
    5000 (-10) (by norm_num)
  rw [hEq]
  rfl

/-- C4 (amended): in `FlightPathPIDSubsystem.action` the emitted
elevator command is the negative of the flight-path PID output clipped
to [-0.5, 0.5] *while* the `-1000` "not yet trimmed" sentinel is still
present (`_last_trim_fpa < -999`), and is held at 0 *after* a trim
baseline has been established — the guard is the reverse of the
spec's description; an independent auto-throttle PID targets the fixed
airspeed 80, its clipped increment added to the current throttle. -/
theorem C4_flight_path_pid_action (s : FlightPathPIDSubsystem)
    (sim : SimState) (des : ℚ) (hmin : s.min_cmd = -(1 / 2))
    (hmax : s.max_cmd = 1 / 2) (htgt : s.target_airspeed = 80) :
    getCmd (s.action sim des).1 JProp.elevator_cmd =
      some (if s.last_trim_fpa < -999 then
        clip (-(s.flight_path_hold_pid.compute sim.flight_path des
          (sim.sim_time_s - s.last_time.getD sim.sim_time_s)).1)
          (-(1 / 2)) (1 / 2)
      else 0) ∧
    getCmd (s.action sim des).1 JProp.throttle_cmd =
      some (sim.throttle_cmd + clip
        ((s.throttle_pid.compute sim.cas_kts 80
          (sim.sim_time_s - s.last_time.getD sim.sim_time_s)).1 *
         (sim.sim_time_s - s.last_time.getD sim.sim_time_s)) (-1) 1) := by
  rw [← hmin, ← hmax, ← htgt]
  exact ⟨rfl, rfl⟩

/-- C4 witness: an untrimmed subsystem (sentinel present) whose clipped
PID elevator output evaluates concretely to -1/2. -/
theorem C4_flight_path_pid_action_witness :
    getCmd ((({} : FlightPathPIDSubsystem).action
        ⟨0, 5000, 0, 80, 0, 0, 1, 5⟩ 10).1) JProp.elevator_cmd =
      some (-(1 / 2)) := by
  have h := (C4_flight_path_pid_action {} ⟨0, 5000, 0, 80, 0, 0, 1, 5⟩ 10
    (by norm_num) (by norm_num) (by norm_num)).1
  rw [h]
  norm_num [PIDController.compute, clip]

/-- C4 counterexample: the claim as stated — elevator held at 0 until a
trim baseline is established — is false: on a fresh subsystem the
sentinel `-1000` (no trim baseline yet) is present, and the emitted
elevator command is the clipped PID value `-1/2 ≠ 0` (flight path 0,
desired flight path 10, so the PID output is `0.071 * 10` and its
negation clips to -0.5). -/
theorem C4_flight_path_pid_counterexample :
    (({} : FlightPathPIDSubsystem).last_trim_fpa = -1000) ∧
    getCmd ((({} : FlightPathPIDSubsystem).action
      ⟨0, 5000, 0, 80, 0, 0, 1, 5⟩ 10).1) JProp.elevator_cmd =
        some (-(1 / 2)) ∧
    (-(1 / 2) : ℚ) ≠ 0 := by
  refine ⟨rfl, ?_, by norm_num⟩
  norm_num [FlightPathPIDSubsystem.action, PIDController.compute, clip,
    setCmd, getCmd]

lemma segVal_lower (r1 t1 r2 t2 x : ℚ) (hr : r1 < r2) (ht : t1 ≤ t2)
    (hx1 : r1 ≤ x) : t1 ≤ t1 + (t2 - t1) * (x - r1) / (r2 - r1) := by
  have h : 0 ≤ (t2 - t1) * (x - r1) / (r2 - r1) :=
    div_nonneg (mul_nonneg (by linarith) (by linarith)) (by linarith)
  linarith

lemma segVal_upper (r1 t1 r2 t2 x : ℚ) (hr : r1 < r2) (ht : t1 ≤ t2)
    (hx2 : x ≤ r2) : t1 + (t2 - t1) * (x - r1) / (r2 - r1) ≤ t2 := by
  have hpos : (0 : ℚ) < r2 - r1 := by linarith
  have h : (t2 - t1) * (x - r1) / (r2 - r1) ≤ t2 - t1 := by
    rw [div_le_iff hpos]
    have := mul_le_mul_of_nonneg_left (sub_le_sub_right hx2 r1)
      (sub_nonneg.mpr ht)
    linarith
  linarith

lemma segVal_mono (r1 t1 r2 t2 x y : ℚ) (hr : r1 < r2) (ht : t1 ≤ t2)
    (hxy : x ≤ y) :
    t1 + (t2 - t1) * (x - r1) / (r2 - r1) ≤
      t1 + (t2 - t1) * (y - r1) / (r2 - r1) := by
  have hpos : (0 : ℚ) < r2 - r1 := by linarith
  have h : (t2 - t1) * (x - r1) ≤ (t2 - t1) * (y - r1) :=
    mul_le_mul_of_nonneg_left (sub_le_sub_right hxy r1) (sub_nonneg.mpr ht)
  have := (div_le_div_iff_of_pos_right hpos).mpr h
  linarith

lemma chain_le_snd_last (ps : List (ℚ × ℚ)) (b q : ℚ × ℚ)
    (hc : List.Chain' (fun u v => u.2 ≤ v.2) (b :: ps))
    (hlast : (b :: ps).getLast? = some q) :
    b.2 ≤ q.2 := by
  induction ps generalizing b with
  | nil =>
      obtain rfl : b = q := by simpa using hlast
      exact le_refl _
  | cons c ps ih =>
      have h1 : b.2 ≤ c.2 := (List.chain'_cons.mp hc).1
      rw [List.getLast?_cons_cons] at hlast
      exact le_trans h1 (ih c (List.chain'_cons.mp hc).2 hlast)

lemma interpPts_some (ps : List (ℚ × ℚ)) (a b q : ℚ × ℚ) (x : ℚ)
    (hr : List.Chain' (fun u v => u.1 < v.1) (a :: b :: ps))
    (ht : List.Chain' (fun u v => u.2 ≤ v.2) (a :: b :: ps))
    (hlast : (b :: ps).getLast? = some q)
    (hx1 : a.1 ≤ x) (hx2 : x ≤ q.1) :
    ∃ v, interpPts (a :: b :: ps) x = some v ∧ a.2 ≤ v ∧ v ≤ q.2 := by
  induction ps generalizing a b with
  | nil =>
      obtain rfl : b = q := by simpa using hlast
      obtain ⟨a1, a2⟩ := a
      obtain ⟨b1, b2⟩ := b
      have hab1 : a1 < b1 := by
        simpa using (List.chain'_cons.mp hr).1
      have hab2 : a2 ≤ b2 := by
        simpa using (List.chain'_cons.mp ht).1
      refine ⟨a2 + (b2 - a2) * (x - a1) / (b1 - a1), ?_, ?_, ?_⟩
      · simp [interpPts, hx1, hx2]
      · exact segVal_lower a1 a2 b1 b2 x hab1 hab2 hx1
      · exact segVal_upper a1 a2 b1 b2 x hab1 hab2 hx2
  | cons c ps ih =>
      have hab1 : a.1 < b.1 := (List.chain'_cons.mp hr).1
      have hab2 : a.2 ≤ b.2 := (List.chain'_cons.mp ht).1
      have hr2 : List.Chain' (fun u v => u.1 < v.1) (b :: c :: ps) :=
        (List.chain'_cons.mp hr).2
      have ht2 : List.Chain' (fun u v => u.2 ≤ v.2) (b :: c :: ps) :=
        (List.chain'_cons.mp ht).2
      rw [List.getLast?_cons_cons] at hlast
      by_cases hxb : x ≤ b.1
      · have hlastb : b.2 ≤ q.2 := chain_le_snd_last (c :: ps) b q ht2
          (by rw [List.getLast?_cons_cons]; exact hlast)
        obtain ⟨a1, a2⟩ := a
        obtain ⟨b1, b2⟩ := b
        refine ⟨a2 + (b2 - a2) * (x - a1) / (b1 - a1), ?_, ?_, ?_⟩
        · simp [interpPts, hx1, hxb]
        · exact segVal_lower a1 a2 b1 b2 x hab1 hab2 hx1
        · exact le_trans (segVal_upper a1 a2 b1 b2 x hab1 hab2 hxb) hlastb
      · obtain ⟨v, hv, hbv, hvq⟩ :=
          ih b c hr2 ht2 hlast (le_of_lt (lt_of_not_le hxb))
        refine ⟨v, ?_, le_trans hab2 hbv, hvq⟩
        obtain ⟨a1, a2⟩ := a
        obtain ⟨b1, b2⟩ := b
        simp only [interpPts, hxb, and_false, if_false]
        simpa using hv

lemma interpPts_mono (ps : List (ℚ × ℚ)) (a b q : ℚ × ℚ) (x y : ℚ)
    (hr : List.Chain' (fun u v => u.1 < v.1) (a :: b :: ps))
    (ht : List.Chain' (fun u v => u.2 ≤ v.2) (a :: b :: ps))
    (hlast : (b :: ps).getLast? = some q)
    (hx1 : a.1 ≤ x) (hxy : x ≤ y) (hy2 : y ≤ q.1) :
    ∀ u v, interpPts (a :: b :: ps) x = some u →
      interpPts (a :: b :: ps) y = some v → u ≤ v := by
  induction ps generalizing a b with
  | nil =>
      obtain rfl : b = q := by simpa using hlast
      obtain ⟨a1, a2⟩ := a
      obtain ⟨b1, b2⟩ := b
      have hab1 : a1 < b1 := by
        simpa using (List.chain'_cons.mp hr).1
      have hab2 : a2 ≤ b2 := by
        simpa using (List.chain'_cons.mp ht).1
      intro u v hu hv
      simp only [interpPts, hx1, le_trans hxy hy2, and_self, if_true,
        le_trans hx1 hxy, hy2, Option.some.injEq, true_and] at hu hv
      rw [← hu, ← hv]
      exact segVal_mono a1 a2 b1 b2 x y hab1 hab2 hxy
  | cons c ps ih =>
      have hab1 : a.1 < b.1 := (List.chain'_cons.mp hr).1
      have hab2 : a.2 ≤ b.2 := (List.chain'_cons.mp ht).1
      have hr2 : List.Chain' (fun u v => u.1 < v.1) (b :: c :: ps) :=
        (List.chain'_cons.mp hr).2
      have ht2 : List.Chain' (fun u v => u.2 ≤ v.2) (b :: c :: ps) :=
        (List.chain'_cons.mp ht).2
      rw [List.getLast?_cons_cons] at hlast
      intro u v hu hv
      by_cases hyb : y ≤ b.1
      · have hxb : x ≤ b.1 := le_trans hxy hyb
        obtain ⟨a1, a2⟩ := a
        obtain ⟨b1, b2⟩ := b
        simp only [interpPts, hx1, hxb, le_trans hx1 hxy, hyb, and_self,
          if_true, Option.some.injEq, true_and] at hu hv
        rw [← hu, ← hv]
        exact segVal_mono a1 a2 b1 b2 x y hab1 hab2 hxy
      · by_cases hxb : x ≤ b.1
        · have hbly : b.1 ≤ y := le_of_lt (lt_of_not_le hyb)
          obtain ⟨v', hv', hbv', _⟩ :=
            interpPts_some ps b c q y hr2 ht2 hlast hbly hy2
          obtain ⟨a1, a2⟩ := a
          obtain ⟨b1, b2⟩ := b
          simp only [interpPts, hx1, hxb, and_self, if_true,
            Option.some.injEq, true_and] at hu
          simp only [interpPts, hyb, and_false, if_false] at hv
          have hvv : v = v' := by
            obtain ⟨c1, c2⟩ := c
            simp only [interpPts] at hv hv'
            exact Option.some_injective _ (hv.symm.trans hv')
          rw [← hu, hvv]
          exact le_trans (segVal_upper a1 a2 b1 b2 x hab1 hab2 hxb) hbv'
        · have hblx : b.1 ≤ x := le_of_lt (lt_of_not_le hxb)
          have hu2 : interpPts (b :: c :: ps) x = some u := by
            obtain ⟨a1, a2⟩ := a
            obtain ⟨b1, b2⟩ := b
            simp only [interpPts, hxb, and_false, if_false] at hu
            simpa using hu
          have hv2 : interpPts (b :: c :: ps) y = some v := by
            obtain ⟨a1, a2⟩ := a
            obtain ⟨b1, b2⟩ := b
            simp only [interpPts, hyb, and_false, if_false] at hv
            simpa using hv
          exact ih b c hr2 ht2 hlast hblx u v hu2 hv2

lemma zip_tables_eq :
    rpms.zip throttle_cmds = (896, 0.0) :: (951, 0.05) :: cessnaPtsTail := by
  norm_num [rpms, throttle_cmds, cessnaPtsTail, List.zip_cons_cons]

lemma tables_chain_lt :
    List.Chain' (fun u v => u.1 < v.1)
      ((896, 0.0) :: (951, 0.05) :: cessnaPtsTail) := by
  norm_num [cessnaPtsTail, List.chain'_cons]

lemma tables_chain_le :
    List.Chain' (fun u v => u.2 ≤ v.2)
      ((896, 0.0) :: (951, 0.05) :: cessnaPtsTail) := by
  norm_num [cessnaPtsTail, List.chain'_cons]

lemma tables_last :
    (((951 : ℚ), (0.05 : ℚ)) :: cessnaPtsTail).getLast? = some (2845, 1) := by
  norm_num [cessnaPtsTail, List.getLast?]

lemma cessna_in_range (x : ℚ) (h1 : 896 ≤ x) (h2 : x ≤ 2845) :
    cessna_rpm_to_throttle_cmd x =
      interpPts ((896, 0.0) :: (951, 0.05) :: cessnaPtsTail) x := by
  unfold cessna_rpm_to_throttle_cmd
  rw [if_neg (not_lt.mpr h2), if_neg (not_lt.mpr h1), zip_tables_eq]

/-- C8: `cessna_rpm_to_throttle_cmd` is monotone non-decreasing over
the table's RPM range [896, 2845], returns exactly 0.0 below the lowest
tabulated RPM and exactly 1.0 above the highest, and reproduces every
tabulated (rpm, throttle) pair exactly. -/
theorem C8_cessna_rpm_to_throttle_cmd_props :
    (∀ x y : ℚ, 896 ≤ x → x ≤ y → y ≤ 2845 →
      ∃ u v, cessna_rpm_to_throttle_cmd x = some u ∧
        cessna_rpm_to_throttle_cmd y = some v ∧ u ≤ v) ∧
    (∀ x : ℚ, x < 896 → cessna_rpm_to_throttle_cmd x = some 0) ∧
    (∀ x : ℚ, 2845 < x → cessna_rpm_to_throttle_cmd x = some 1) ∧
    List.Forall (fun pt => cessna_rpm_to_throttle_cmd pt.1 = some pt.2)
      (rpms.zip throttle_cmds) := by
  refine ⟨?_, ?_, ?_, ?_⟩
  · intro x y hx hxy hy
    have hx2 : x ≤ 2845 := le_trans hxy hy
    have hy1 : (896 : ℚ) ≤ y := le_trans hx hxy
    obtain ⟨u, hu, _, _⟩ := interpPts_some cessnaPtsTail (896, 0.0)
      (951, 0.05) (2845, 1) x tables_chain_lt tables_chain_le tables_last
      hx hx2
    obtain ⟨v, hv, _, _⟩ := interpPts_some cessnaPtsTail (896, 0.0)
      (951, 0.05) (2845, 1) y tables_chain_lt tables_chain_le tables_last
      hy1 hy
    refine ⟨u, v, ?_, ?_, ?_⟩
    · rw [cessna_in_range x hx hx2]; exact hu
    · rw [cessna_in_range y hy1 hy]; exact hv
    · exact interpPts_mono cessnaPtsTail (896, 0.0) (951, 0.05) (2845, 1)
        x y tables_chain_lt tables_chain_le tables_last hx hxy hy u v hu hv
  · intro x h
    unfold cessna_rpm_to_throttle_cmd
    rw [if_neg (not_lt.mpr (le_of_lt (lt_trans h (by norm_num)))), if_pos h]
  · intro x h
    unfold cessna_rpm_to_throttle_cmd
    rw [if_pos h]
  · rw [zip_tables_eq]
    norm_num [cessnaPtsTail, List.Forall, cessna_rpm_to_throttle_cmd,
      interpPts]

/-- C8 witness: the monotonicity and clamping parts evaluated at
concrete RPMs 1000 ≤ 2000 in range, 800 below range, 2900 above. -/
theorem C8_cessna_rpm_to_throttle_cmd_props_witness :
    (∃ u v, cessna_rpm_to_throttle_cmd 1000 = some u ∧
      cessna_rpm_to_throttle_cmd 2000 = some v ∧ u ≤ v) ∧
    cessna_rpm_to_throttle_cmd 800 = some 0 ∧
    cessna_rpm_to_throttle_cmd 2900 = some 1 :=
  ⟨C8_cessna_rpm_to_throttle_cmd_props.1 1000 2000 (by norm_num)
      (by norm_num) (by norm_num),
   C8_cessna_rpm_to_throttle_cmd_props.2.1 800 (by norm_num),
   C8_cessna_rpm_to_throttle_cmd_props.2.2.1 2900 (by norm_num)⟩

lemma tickAltOvershoot_max_alt (a d alt err : ℚ) (e : EvalRecord) :
    (tickAltOvershoot a d alt err e).max_alt_overshoot =
      if a < 0 ∧ alt < d then max e.max_alt_overshoot err
      else if a > 0 ∧ alt > d then max e.max_alt_overshoot err
      else e.max_alt_overshoot := by
  unfold tickAltOvershoot
  split_ifs <;> rfl

lemma tickAltOvershoot_hdg (a d alt err : ℚ) (e : EvalRecord) :
    (tickAltOvershoot a d alt err e).max_hdg_overshoot =
      e.max_hdg_overshoot := by
  unfold tickAltOvershoot
  split_ifs <;> rfl

lemma tickAltOvershoot_alt_ss (a d alt err : ℚ) (e : EvalRecord) :
    (tickAltOvershoot a d alt err e).avg_alt_steady_state_error =
      e.avg_alt_steady_state_error := by
  unfold tickAltOvershoot
  split_ifs <;> rfl

lemma tickAltOvershoot_hdg_ss (a d alt err : ℚ) (e : EvalRecord) :
    (tickAltOvershoot a d alt err e).avg_hdg_steady_state_error =
      e.avg_hdg_steady_state_error := by
  unfold tickAltOvershoot
  split_ifs <;> rfl

lemma tickHdgOvershoot_max_hdg (a d hd err : ℚ) (e : EvalRecord) :
    (tickHdgOvershoot a d hd err e).max_hdg_overshoot =
      if a < 0 ∧ hd < d then max e.max_hdg_overshoot err
      else if a > 0 ∧ hd > d then max e.max_hdg_overshoot err
      else e.max_hdg_overshoot := by
  unfold tickHdgOvershoot
  split_ifs <;> rfl

lemma tickHdgOvershoot_alt (a d hd err : ℚ) (e : EvalRecord) :
    (tickHdgOvershoot a d hd err e).max_alt_overshoot =
      e.max_alt_overshoot := by
  unfold tickHdgOvershoot
  split_ifs <;> rfl

lemma tickHdgOvershoot_alt_ss (a d hd err : ℚ) (e : EvalRecord) :
    (tickHdgOvershoot a d hd err e).avg_alt_steady_state_error =
      e.avg_alt_steady_state_error := by
  unfold tickHdgOvershoot
  split_ifs <;> rfl

lemma tickHdgOvershoot_hdg_ss (a d hd err : ℚ) (e : EvalRecord) :
    (tickHdgOvershoot a d hd err e).avg_hdg_steady_state_error =
      e.avg_hdg_steady_state_error := by
  unfold tickHdgOvershoot
  split_ifs <;> rfl

lemma tickSpeedLoad_fields (lf cas : ℚ) (e : EvalRecord) :
    (tickSpeedLoad lf cas e).max_alt_overshoot = e.max_alt_overshoot ∧
    (tickSpeedLoad lf cas e).max_hdg_overshoot = e.max_hdg_overshoot ∧
    (tickSpeedLoad lf cas e).avg_alt_steady_state_error =
      e.avg_alt_steady_state_error ∧
    (tickSpeedLoad lf cas e).avg_hdg_steady_state_error =
      e.avg_hdg_steady_state_error :=
  ⟨rfl, rfl, rfl, rfl⟩

lemma tickAltSS_alt_ss (ns ms err : ℚ) (e : EvalRecord) :
    (tickAltSS ns ms err e).avg_alt_steady_state_error =
      e.avg_alt_steady_state_error + (if ns > ms then err else 0) := by
  unfold tickAltSS
  split_ifs <;> simp

lemma tickAltSS_others (ns ms err : ℚ) (e : EvalRecord) :
    (tickAltSS ns ms err e).max_alt_overshoot = e.max_alt_overshoot ∧
    (tickAltSS ns ms err e).max_hdg_overshoot = e.max_hdg_overshoot ∧
    (tickAltSS ns ms err e).avg_hdg_steady_state_error =
      e.avg_hdg_steady_state_error := by
  unfold tickAltSS
  split_ifs <;> exact ⟨rfl, rfl, rfl⟩

lemma tickHdgSS_hdg_ss (ns ms err : ℚ) (e : EvalRecord) :
    (tickHdgSS ns ms err e).avg_hdg_steady_state_error =
      e.avg_hdg_steady_state_error + (if ns > ms then err else 0) := by
  unfold tickHdgSS
  split_ifs <;> simp

lemma tickHdgSS_others (ns ms err : ℚ) (e : EvalRecord) :
    (tickHdgSS ns ms err e).max_alt_overshoot = e.max_alt_overshoot ∧
    (tickHdgSS ns ms err e).max_hdg_overshoot = e.max_hdg_overshoot ∧
    (tickHdgSS ns ms err e).avg_alt_steady_state_error =
      e.avg_alt_steady_state_error := by
  unfold tickHdgSS
  split_ifs <;> exact ⟨rfl, rfl, rfl⟩

lemma tickContact_others (ae he atol htol tv : ℚ) (e : EvalRecord) :
    (tickContact ae he atol htol tv e).max_alt_overshoot = e.max_alt_overshoot ∧
    (tickContact ae he atol htol tv e).max_hdg_overshoot = e.max_hdg_overshoot ∧
    (tickContact ae he atol htol tv e).avg_alt_steady_state_error =
      e.avg_alt_steady_state_error ∧
    (tickContact ae he atol htol tv e).avg_hdg_steady_state_error =
      e.avg_hdg_steady_state_error := by
  unfold tickContact
  split_ifs <;> exact ⟨rfl, rfl, rfl, rfl⟩

lemma evalTick_alt_ss (p : TrialParams) (e : EvalRecord) (n : ℕ) (o : SimObs) :
    (evalTick p e n o).avg_alt_steady_state_error =
      e.avg_alt_steady_state_error +
        (if (n : ℚ) > p.max_man_steps then altErrorOf p o else 0) := by
  unfold evalTick
  rw [(tickContact_others _ _ _ _ _ _).2.2.1,
    (tickHdgSS_others _ _ _ _).2.2, tickAltSS_alt_ss,
    (tickSpeedLoad_fields _ _ _).2.2.1, tickHdgOvershoot_alt_ss,
    tickAltOvershoot_alt_ss]

lemma evalTick_hdg_ss (p : TrialParams) (e : EvalRecord) (n : ℕ) (o : SimObs) :
    (evalTick p e n o).avg_hdg_steady_state_error =
      e.avg_hdg_steady_state_error +
        (if (n : ℚ) > p.max_man_steps then hdgErrorOf p o else 0) := by
  unfold evalTick
  rw [(tickContact_others _ _ _ _ _ _).2.2.2, tickHdgSS_hdg_ss,
    (tickAltSS_others _ _ _ _).2.2, (tickSpeedLoad_fields _ _ _).2.2.2,
    tickHdgOvershoot_hdg_ss, tickAltOvershoot_hdg_ss]

lemma evalTick_max_alt (p : TrialParams) (e : EvalRecord) (n : ℕ) (o : SimObs)
    (h1 : ¬(p.alt_change < 0 ∧ o.altitude_sl_ft < p.des_alt))
    (h2 : ¬(p.alt_change > 0 ∧ o.altitude_sl_ft > p.des_alt)) :
    (evalTick p e n o).max_alt_overshoot = e.max_alt_overshoot := by
  unfold evalTick
  rw [(tickContact_others _ _ _ _ _ _).1, (tickHdgSS_others _ _ _ _).1,
    (tickAltSS_others _ _ _ _).1, (tickSpeedLoad_fields _ _ _).1,
    tickHdgOvershoot_alt, tickAltOvershoot_max_alt, if_neg h1, if_neg h2]

lemma evalTick_max_hdg (p : TrialParams) (e : EvalRecord) (n : ℕ) (o : SimObs)
    (h1 : ¬(p.hdg_change < 0 ∧ o.heading_deg < p.des_hdg))
    (h2 : ¬(p.hdg_change > 0 ∧ o.heading_deg > p.des_hdg)) :
    (evalTick p e n o).max_hdg_overshoot = e.max_hdg_overshoot := by
  unfold evalTick
  rw [(tickContact_others _ _ _ _ _ _).2.1, (tickHdgSS_others _ _ _ _).2.1,
    (tickAltSS_others _ _ _ _).2.1, (tickSpeedLoad_fields _ _ _).2.1,
    tickHdgOvershoot_max_hdg, if_neg h1, if_neg h2, tickAltOvershoot_hdg]

lemma evalLoop_nil (p : TrialParams) (e : EvalRecord) (n : ℕ) :
    evalLoop p e n [] = e := rfl

lemma evalLoop_cons (p : TrialParams) (e : EvalRecord) (n : ℕ) (o : SimObs)
    (rest : List SimObs) :
    evalLoop p e n (o :: rest) = evalLoop p (evalTick p e n o) (n + 1) rest :=
  rfl

lemma steadyAltSumFrom_nil (p : TrialParams) (n : ℕ) :
    steadyAltSumFrom p n [] = 0 := rfl

lemma steadyAltSumFrom_cons (p : TrialParams) (n : ℕ) (o : SimObs)
    (rest : List SimObs) :
    steadyAltSumFrom p n (o :: rest) =
      (if (n : ℚ) > p.max_man_steps then altErrorOf p o else 0) +
        steadyAltSumFrom p (n + 1) rest := rfl

lemma steadyHdgSumFrom_nil (p : TrialParams) (n : ℕ) :
    steadyHdgSumFrom p n [] = 0 := rfl

lemma steadyHdgSumFrom_cons (p : TrialParams) (n : ℕ) (o : SimObs)
    (rest : List SimObs) :
    steadyHdgSumFrom p n (o :: rest) =
      (if (n : ℚ) > p.max_man_steps then hdgErrorOf p o else 0) +
        steadyHdgSumFrom p (n + 1) rest := rfl

lemma steadyCountFrom_nil (p : TrialParams) (n : ℕ) :
    steadyCountFrom p n [] = 0 := rfl

lemma steadyCountFrom_cons (p : TrialParams) (n : ℕ) (o : SimObs)
    (rest : List SimObs) :
    steadyCountFrom p n (o :: rest) =
      (if (n : ℚ) > p.max_man_steps then 1 else 0) +
        steadyCountFrom p (n + 1) rest := rfl

lemma evalLoop_alt_ss (p : TrialParams) (trace : List SimObs) :
    ∀ (e : EvalRecord) (n : ℕ),
      (evalLoop p e n trace).avg_alt_steady_state_error =
        e.avg_alt_steady_state_error + steadyAltSumFrom p n trace := by
  induction trace with
  | nil =>
      intro e n
      rw [evalLoop_nil, steadyAltSumFrom_nil]
      ring
  | cons o rest ih =>
      intro e n
      rw [evalLoop_cons, ih, evalTick_alt_ss, steadyAltSumFrom_cons]
      ring

lemma evalLoop_hdg_ss (p : TrialParams) (trace : List SimObs) :
    ∀ (e : EvalRecord) (n : ℕ),
      (evalLoop p e n trace).avg_hdg_steady_state_error =
        e.avg_hdg_steady_state_error + steadyHdgSumFrom p n trace := by
  induction trace with
  | nil =>
      intro e n
      rw [evalLoop_nil, steadyHdgSumFrom_nil]
      ring
  | cons o rest ih =>
      intro e n
      rw [evalLoop_cons, ih, evalTick_hdg_ss, steadyHdgSumFrom_cons]
      ring

lemma evalLoop_max_alt (p : TrialParams) (trace : List SimObs)
    (hnc : ∀ o ∈ trace, ¬(p.alt_change < 0 ∧ o.altitude_sl_ft < p.des_alt) ∧
      ¬(p.alt_change > 0 ∧ o.altitude_sl_ft > p.des_alt)) :
    ∀ (e : EvalRecord) (n : ℕ),
      (evalLoop p e n trace).max_alt_overshoot = e.max_alt_overshoot := by
  induction trace with
  | nil => intro e n; rw [evalLoop_nil]
  | cons o rest ih =>
      intro e n
      have ho := hnc o (List.mem_cons_self o rest)
      rw [evalLoop_cons,
        ih (fun o' ho' => hnc o' (List.mem_cons_of_mem o ho')),
        evalTick_max_alt p e n o ho.1 ho.2]

lemma evalLoop_max_hdg (p : TrialParams) (trace : List SimObs)
    (hnc : ∀ o ∈ trace, ¬(p.hdg_change < 0 ∧ o.heading_deg < p.des_hdg) ∧
      ¬(p.hdg_change > 0 ∧ o.heading_deg > p.des_hdg)) :
    ∀ (e : EvalRecord) (n : ℕ),
      (evalLoop p e n trace).max_hdg_overshoot = e.max_hdg_overshoot := by
  induction trace with
  | nil => intro e n; rw [evalLoop_nil]
  | cons o rest ih =>
      intro e n
      have ho := hnc o (List.mem_cons_self o rest)
      rw [evalLoop_cons,
        ih (fun o' ho' => hnc o' (List.mem_cons_of_mem o ho')),
        evalTick_max_hdg p e n o ho.1 ho.2]

lemma finalizeEval_alt_ss (e : EvalRecord) (n : ℕ) :
    (finalizeEval e n).avg_alt_steady_state_error =
      e.avg_alt_steady_state_error / (n : ℚ) := rfl

lemma finalizeEval_hdg_ss (e : EvalRecord) (n : ℕ) :
    (finalizeEval e n).avg_hdg_steady_state_error =
      e.avg_hdg_steady_state_error / (n : ℚ) := rfl

lemma finalizeEval_max_alt (e : EvalRecord) (n : ℕ) :
    (finalizeEval e n).max_alt_overshoot = e.max_alt_overshoot := rfl

lemma finalizeEval_max_hdg (e : EvalRecord) (n : ℕ) :
    (finalizeEval e n).max_hdg_overshoot = e.max_hdg_overshoot := rfl

lemma initEval_fields (p : TrialParams) :
    (initEval p).avg_alt_steady_state_error = 0 ∧
    (initEval p).avg_hdg_steady_state_error = 0 ∧
    (initEval p).max_alt_overshoot = 0 ∧
    (initEval p).max_hdg_overshoot = 0 :=
  ⟨rfl, rfl, rfl, rfl⟩

/-- C2 (amended): a tick's altitude and heading errors enter the
steady-state accumulators exactly when the tick counter strictly
exceeds `max_man_steps`; the finalized averages, however, divide the
steady-state sums by the total tick count `num_steps` (the trace
length), not by the number of steady-state ticks. -/
theorem C2_steady_state_accumulation (p : TrialParams) (e : EvalRecord)
    (n : ℕ) (o : SimObs) (trace : List SimObs) :
    (¬((n : ℚ) > p.max_man_steps) →
      (evalTick p e n o).avg_alt_steady_state_error =
        e.avg_alt_steady_state_error ∧
      (evalTick p e n o).avg_hdg_steady_state_error =
        e.avg_hdg_steady_state_error) ∧
    (((n : ℚ) > p.max_man_steps) →
      (evalTick p e n o).avg_alt_steady_state_error =
        e.avg_alt_steady_state_error + altErrorOf p o ∧
      (evalTick p e n o).avg_hdg_steady_state_error =
        e.avg_hdg_steady_state_error + hdgErrorOf p o) ∧
    (runSingleEval p trace).avg_alt_steady_state_error =
      steadyAltSumFrom p 0 trace / (trace.length : ℚ) ∧
    (runSingleEval p trace).avg_hdg_steady_state_error =
      steadyHdgSumFrom p 0 trace / (trace.length : ℚ) := by
  refine ⟨?_, ?_, ?_, ?_⟩
  · intro h
    rw [evalTick_alt_ss, evalTick_hdg_ss, if_neg h, if_neg h]
    exact ⟨by ring, by ring⟩
  · intro h
    rw [evalTick_alt_ss, evalTick_hdg_ss, if_pos h, if_pos h]
    exact ⟨rfl, rfl⟩
  · unfold runSingleEval
    rw [finalizeEval_alt_ss, evalLoop_alt_ss, (initEval_fields p).1,
      zero_add]
  · unfold runSingleEval
    rw [finalizeEval_hdg_ss, evalLoop_hdg_ss, (initEval_fields p).2.1,
      zero_add]

/-- C2 witness: with a step budget of 5, tick 0 leaves both
accumulators unchanged and tick 6 adds the errors; a two-tick trial's
finalized averages equal the steady sums over the trace length. -/
theorem C2_steady_state_accumulation_witness :
    ((evalTick ⟨5000, 0, 0, 0, 5, 1, 100⟩ {} 0
        ⟨5010, 0, 1, 100⟩).avg_alt_steady_state_error =
      ({} : EvalRecord).avg_alt_steady_state_error ∧
     (evalTick ⟨5000, 0, 0, 0, 5, 1, 100⟩ {} 0
        ⟨5010, 0, 1, 100⟩).avg_hdg_steady_state_error =
      ({} : EvalRecord).avg_hdg_steady_state_error) ∧
    ((evalTick ⟨5000, 0, 0, 0, 5, 1, 100⟩ {} 6
        ⟨5010, 0, 1, 100⟩).avg_alt_steady_state_error =
      ({} : EvalRecord).avg_alt_steady_state_error +
        altErrorOf ⟨5000, 0, 0, 0, 5, 1, 100⟩ ⟨5010, 0, 1, 100⟩ ∧
     (evalTick ⟨5000, 0, 0, 0, 5, 1, 100⟩ {} 6
        ⟨5010, 0, 1, 100⟩).avg_hdg_steady_state_error =
      ({} : EvalRecord).avg_hdg_steady_state_error +
        hdgErrorOf ⟨5000, 0, 0, 0, 5, 1, 100⟩ ⟨5010, 0, 1, 100⟩) :=
  ⟨(C2_steady_state_accumulation ⟨5000, 0, 0, 0, 5, 1, 100⟩ {} 0
      ⟨5010, 0, 1, 100⟩ []).1 (by norm_num),
   (C2_steady_state_accumulation ⟨5000, 0, 0, 0, 5, 1, 100⟩ {} 6
      ⟨5010, 0, 1, 100⟩ []).2.1 (by norm_num)⟩

lemma steadyAltSumFrom_replicate (p : TrialParams) (o : SimObs)
    (hm : p.max_man_steps = 0) :
    ∀ (k n : ℕ), 1 ≤ n →
      steadyAltSumFrom p n (List.replicate k o) = k * altErrorOf p o := by
  intro k
  induction k with
  | zero => intro n hn; simp [steadyAltSumFrom_nil]
  | succ k ih =>
      intro n hn
      have hpos : ((n : ℚ)) > p.max_man_steps := by
        rw [hm]
        exact_mod_cast Nat.lt_of_lt_of_le Nat.zero_lt_one hn
      rw [List.replicate_succ, steadyAltSumFrom_cons, if_pos hpos,
        ih (n + 1) (by omega)]
      push_cast
      ring

lemma steadyCountFrom_replicate (p : TrialParams) (o : SimObs)
    (hm : p.max_man_steps = 0) :
    ∀ (k n : ℕ), 1 ≤ n →
      steadyCountFrom p n (List.replicate k o) = k := by
  intro k
  induction k with
  | zero => intro n hn; simp [steadyCountFrom_nil]
  | succ k ih =>
      intro n hn
      have hpos : ((n : ℚ)) > p.max_man_steps := by
        rw [hm]
        exact_mod_cast Nat.lt_of_lt_of_le Nat.zero_lt_one hn
      rw [List.replicate_succ, steadyCountFrom_cons, if_pos hpos,
        ih (n + 1) (by omega)]
      omega

/-- C2 counterexample: the claim as stated — finalized average equals
steady sum over steady-tick count — is false on a concrete completed
trial: a hold/hold trial (`max_man_steps = 0`, so
`max_steps = 0 + 90*5 = 450` ticks) with constant 10 ft altitude error
has steady sum 4490 over 449 steady ticks (claimed average 10), but the
code divides by the full 450 ticks, yielding 449/45 ≠ 10. -/
theorem C2_steady_state_divisor_counterexample :
    (runSingleEval ⟨5000, 0, 0, 0, 0, 0, 100⟩
        (List.replicate 450 ⟨5010, 0, 1, 100⟩)).avg_alt_steady_state_error =
      449 / 45 ∧
    steadyAltSumFrom ⟨5000, 0, 0, 0, 0, 0, 100⟩ 0
        (List.replicate 450 ⟨5010, 0, 1, 100⟩) /
      ((steadyCountFrom ⟨5000, 0, 0, 0, 0, 0, 100⟩ 0
        (List.replicate 450 ⟨5010, 0, 1, 100⟩) : ℕ) : ℚ) = 10 ∧
    ((449 / 45 : ℚ) ≠ 10) := by
  have herr : altErrorOf ⟨5000, 0, 0, 0, 0, 0, 100⟩ ⟨5010, 0, 1, 100⟩ = 10 := by
    norm_num [altErrorOf]
  have hm : (⟨5000, 0, 0, 0, 0, 0, 100⟩ : TrialParams).max_man_steps = 0 := rfl
  have hsum : steadyAltSumFrom ⟨5000, 0, 0, 0, 0, 0, 100⟩ 0
      (List.replicate 450 ⟨5010, 0, 1, 100⟩) = 4490 := by
    rw [show (450 : ℕ) = 449 + 1 from rfl, List.replicate_succ,
      steadyAltSumFrom_cons,
      if_neg (by rw [hm]; exact lt_irrefl (0 : ℚ)),
      steadyAltSumFrom_replicate _ _ hm 449 1 (le_refl 1), herr]
    norm_num
  have hcount : steadyCountFrom ⟨5000, 0, 0, 0, 0, 0, 100⟩ 0
      (List.replicate 450 ⟨5010, 0, 1, 100⟩) = 449 := by
    rw [show (450 : ℕ) = 449 + 1 from rfl, List.replicate_succ,
      steadyCountFrom_cons,
      if_neg (by rw [hm]; exact lt_irrefl (0 : ℚ)),
      steadyCountFrom_replicate _ _ hm 449 1 (le_refl 1)]
  refine ⟨?_, ?_, by norm_num⟩
  · unfold runSingleEval
    rw [finalizeEval_alt_ss, evalLoop_alt_ss, (initEval_fields _).1, zero_add,
      hsum, List.length_replicate]
    norm_num
  · rw [hsum, hcount]
    norm_num

/-- C6: the overshoot maxima move only on ticks where the measured
value has crossed past the setpoint in the direction of the commanded
change, and for a trajectory that never crosses the setpoint in the
commanded direction the trial-end maxima are exactly 0. -/
theorem C6_overshoot_only_on_crossing (p : TrialParams) (e : EvalRecord)
    (n : ℕ) (o : SimObs) (trace : List SimObs) :
    (¬(p.alt_change < 0 ∧ o.altitude_sl_ft < p.des_alt) →
     ¬(p.alt_change > 0 ∧ o.altitude_sl_ft > p.des_alt) →
      (evalTick p e n o).max_alt_overshoot = e.max_alt_overshoot) ∧
    (¬(p.hdg_change < 0 ∧ o.heading_deg < p.des_hdg) →
     ¬(p.hdg_change > 0 ∧ o.heading_deg > p.des_hdg) →
      (evalTick p e n o).max_hdg_overshoot = e.max_hdg_overshoot) ∧
    ((∀ o' ∈ trace, (p.alt_change < 0 → p.des_alt ≤ o'.altitude_sl_ft) ∧
        (p.alt_change > 0 → o'.altitude_sl_ft ≤ p.des_alt)) →
      (runSingleEval p trace).max_alt_overshoot = 0) ∧
    ((∀ o' ∈ trace, (p.hdg_change < 0 → p.des_hdg ≤ o'.heading_deg) ∧
        (p.hdg_change > 0 → o'.heading_deg ≤ p.des_hdg)) →
      (runSingleEval p trace).max_hdg_overshoot = 0) := by
  refine ⟨evalTick_max_alt p e n o, evalTick_max_hdg p e n o, ?_, ?_⟩
  · intro h
    unfold runSingleEval
    rw [finalizeEval_max_alt, evalLoop_max_alt p trace ?_,
      (initEval_fields p).2.2.1]
    intro o' ho'
    constructor
    · rintro ⟨hlt, hbelow⟩
      exact absurd ((h o' ho').1 hlt) (not_le.mpr hbelow)
    · rintro ⟨hgt, habove⟩
      exact absurd ((h o' ho').2 hgt) (not_le.mpr habove)
  · intro h
    unfold runSingleEval
    rw [finalizeEval_max_hdg, evalLoop_max_hdg p trace ?_,
      (initEval_fields p).2.2.2]
    intro o' ho'
    constructor
    · rintro ⟨hlt, hbelow⟩
      exact absurd ((h o' ho').1 hlt) (not_le.mpr hbelow)
    · rintro ⟨hgt, habove⟩
      exact absurd ((h o' ho').2 hgt) (not_le.mpr habove)

/-- C6 witness: a climb trial whose single-tick trajectory stays below
the setpoint has zero recorded overshoot, and a non-crossing tick
leaves the maximum unchanged. -/
theorem C6_overshoot_only_on_crossing_witness :
    ((evalTick ⟨5000, 0, 200, 0, 0, 0, 100⟩ {} 0
        ⟨4990, 0, 1, 100⟩).max_alt_overshoot =
      ({} : EvalRecord).max_alt_overshoot) ∧
    (runSingleEval ⟨5000, 0, 200, 0, 0, 0, 100⟩
        [⟨4990, 0, 1, 100⟩]).max_alt_overshoot = 0 := by
  have h := C6_overshoot_only_on_crossing ⟨5000, 0, 200, 0, 0, 0, 100⟩ {} 0
    ⟨4990, 0, 1, 100⟩ [⟨4990, 0, 1, 100⟩]
  refine ⟨h.1 (by norm_num) (by norm_num), h.2.2.1 ?_⟩
  intro o' ho'
  simp only [List.mem_singleton] at ho'
  subst ho'
  exact ⟨fun hlt => absurd hlt (by norm_num), fun _ => by norm_num⟩

/-- C3 (amended): `sort_evals` orders trials by the lexicographic key
(airspeed-envelope violation 0/1, average altitude steady-state error
rounded to the nearest 50, max altitude overshoot rounded to the
nearest 50, late contact 0/1, max load factor rounded to the nearest
0.5) ascending and then reverses, so index 0 is worst — where "late"
compares the contact time in seconds against
`max man time mins / 60 + 5` (the minute-denominated budget divided by
60, plus the fixed 5 buffer), not against the budget converted to
seconds; for two trials differing only in the steady-state-error
bucket, the larger-bucket trial appears first (worst) in the returned
order, whichever order they were recorded in, regardless of the
unrounded raw values. -/
theorem C3_sort_evals_bucket_order (ac : Aircraft) (e1 e2 : EvalRecord)
    (hviol : (eval_sort_key ac e1).1 = (eval_sort_key ac e2).1)
    (hovr : (eval_sort_key ac e1).2.2.1 = (eval_sort_key ac e2).2.2.1)
    (hlate : (eval_sort_key ac e1).2.2.2.1 = (eval_sort_key ac e2).2.2.2.1)
    (hload : (eval_sort_key ac e1).2.2.2.2 = (eval_sort_key ac e2).2.2.2.2)
    (hbucket : (eval_sort_key ac e2).2.1 < (eval_sort_key ac e1).2.1) :
    (sort_evals ac [e1, e2]).1 = [0, 1] ∧
    (sort_evals ac [e2, e1]).1 = [1, 0] := by
  have h1 : keyLE (eval_sort_key ac e2) (eval_sort_key ac e1) :=
    Or.inr ⟨hviol.symm, Or.inl hbucket⟩
  have h2 : ¬ keyLE (eval_sort_key ac e1) (eval_sort_key ac e2) := by
    rintro (h | ⟨-, h | ⟨heq, -⟩⟩)
    · exact absurd h (by rw [hviol]; exact lt_irrefl _)
    · exact absurd h (not_lt.mpr (le_of_lt hbucket))
    · exact absurd heq (ne_of_gt hbucket)
  constructor
  · show ((stableSortLE _ ([e1, e2]).enum).reverse.map (fun p => p.1)) = [0, 1]
    rw [show ([e1, e2]).enum = [(0, e1), (1, e2)] from rfl]
    simp only [stableSortLE, insertLE]
    rw [if_neg h2]
    rfl
  · show ((stableSortLE _ ([e2, e1]).enum).reverse.map (fun p => p.1)) = [1, 0]
    rw [show ([e2, e1]).enum = [(0, e2), (1, e1)] from rfl]
    simp only [stableSortLE, insertLE]
    rw [if_pos h1]
    rfl

/-- C3 witness: two trials identical except for raw steady-state errors
60 and 20 (buckets 50 and 0): the bucket-50 trial is returned first
from either input order. -/
theorem C3_sort_evals_bucket_order_witness :
    (sort_evals ⟨48, 163⟩
      [{ min_airspeed := 100, max_airspeed := 120,
         max_man_time_mins := 1, avg_alt_steady_state_error := 60 },
       { min_airspeed := 100, max_airspeed := 120,
         max_man_time_mins := 1, avg_alt_steady_state_error := 20 }]).1 =
      [0, 1] ∧
    (sort_evals ⟨48, 163⟩
      [{ min_airspeed := 100, max_airspeed := 120,
         max_man_time_mins := 1, avg_alt_steady_state_error := 20 },
       { min_airspeed := 100, max_airspeed := 120,
         max_man_time_mins := 1, avg_alt_steady_state_error := 60 }]).1 =
      [1, 0] := by
  have h := C3_sort_evals_bucket_order ⟨48, 163⟩
    { min_airspeed := 100, max_airspeed := 120,
      max_man_time_mins := 1, avg_alt_steady_state_error := 60 }
    { min_airspeed := 100, max_airspeed := 120,
      max_man_time_mins := 1, avg_alt_steady_state_error := 20 }
  have h60 : eval_sort_key ⟨48, 163⟩
      { min_airspeed := 100, max_airspeed := 120,
        max_man_time_mins := 1, avg_alt_steady_state_error := 60 } =
      (0, 50, 0, 0, 0) := by
    norm_num [eval_sort_key, round_to_nearest, pyRound]
  have h20 : eval_sort_key ⟨48, 163⟩
      { min_airspeed := 100, max_airspeed := 120,
        max_man_time_mins := 1, avg_alt_steady_state_error := 20 } =
      (0, 0, 0, 0, 0) := by
    norm_num [eval_sort_key, round_to_nearest, pyRound]
  exact h (by rw [h60, h20]) (by rw [h60, h20]) (by rw [h60, h20])
    (by rw [h60, h20]) (by rw [h60, h20]; norm_num)

lemma sort_evals_pair_not_le (ac : Aircraft) (e1 e2 : EvalRecord)
    (h : ¬ keyLE (eval_sort_key ac e1) (eval_sort_key ac e2)) :
    (sort_evals ac [e1, e2]).1 = [0, 1] := by
  show ((stableSortLE _ ([e1, e2]).enum).reverse.map (fun p => p.1)) = [0, 1]
  rw [show ([e1, e2]).enum = [(0, e1), (1, e2)] from rfl]
  simp only [stableSortLE, insertLE]
  rw [if_neg h]
  rfl

lemma sort_evals_specWorded_pair_le (ac : Aircraft) (e1 e2 : EvalRecord)
    (h : keyLE (eval_sort_key_specWorded ac e1)
      (eval_sort_key_specWorded ac e2)) :
    (sort_evals_specWorded ac [e1, e2]).1 = [1, 0] := by
  show ((stableSortLE _ ([e1, e2]).enum).reverse.map (fun p => p.1)) = [1, 0]
  rw [show ([e1, e2]).enum = [(0, e1), (1, e2)] from rfl]
  simp only [stableSortLE, insertLE]
  rw [if_pos h]
  rfl

/-- C3 counterexample: the claim's reading of "late" — contact time
exceeding the maneuver time budget plus a fixed buffer — does not match
the code, which compares seconds against `mins / 60 + 5`: with a 1-min
budget, contact at 10 s is late for the code (10 > 1/60 + 5) but not
for the claim (10 ≤ 60 + 5), so sorting two otherwise-equal trials
(contact 10 s vs 4 s) returns worst-to-best order [0, 1] in the code
but [1, 0] under the claim's key. -/
theorem C3_sort_evals_late_counterexample :
    (sort_evals ⟨48, 163⟩
      [{ min_airspeed := 100, max_airspeed := 120,
         max_man_time_mins := 1, time_to_first_contact_s := 10 },
       { min_airspeed := 100, max_airspeed := 120,
         max_man_time_mins := 1, time_to_first_contact_s := 4 }]).1 =
      [0, 1] ∧
    (sort_evals_specWorded ⟨48, 163⟩
      [{ min_airspeed := 100, max_airspeed := 120,
         max_man_time_mins := 1, time_to_first_contact_s := 10 },
       { min_airspeed := 100, max_airspeed := 120,
         max_man_time_mins := 1, time_to_first_contact_s := 4 }]).1 =
      [1, 0] := by
  have hA : eval_sort_key ⟨48, 163⟩
      { min_airspeed := 100, max_airspeed := 120,
        max_man_time_mins := 1, time_to_first_contact_s := 10 } =
      (0, 0, 0, 1, 0) := by
    norm_num [eval_sort_key, round_to_nearest, pyRound]
  have hB : eval_sort_key ⟨48, 163⟩
      { min_airspeed := 100, max_airspeed := 120,
        max_man_time_mins := 1, time_to_first_contact_s := 4 } =
      (0, 0, 0, 0, 0) := by
    norm_num [eval_sort_key, round_to_nearest, pyRound]
  have hA' : eval_sort_key_specWorded ⟨48, 163⟩
      { min_airspeed := 100, max_airspeed := 120,
        max_man_time_mins := 1, time_to_first_contact_s := 10 } =
      (0, 0, 0, 0, 0) := by
    norm_num [eval_sort_key_specWorded, round_to_nearest, pyRound]
  have hB' : eval_sort_key_specWorded ⟨48, 163⟩
      { min_airspeed := 100, max_airspeed := 120,
        max_man_time_mins := 1, time_to_first_contact_s := 4 } =
      (0, 0, 0, 0, 0) := by
    norm_num [eval_sort_key_specWorded, round_to_nearest, pyRound]
  exact ⟨sort_evals_pair_not_le _ _ _ (by rw [hA, hB]; norm_num [keyLE]),
    sort_evals_specWorded_pair_le _ _ _ (by rw [hA', hB']; norm_num [keyLE])⟩

lemma batchAccum_time (b : BatchEval) (r : EvalRecord) :
    (batchAccum b r).avg_time_fufillment =
      b.avg_time_fufillment +
        (if r.max_man_time_mins ≠ 0 then
          (if r.time_to_first_contact_s = 0 then r.max_man_time_mins * 2 * 60
           else r.time_to_first_contact_s) / r.max_man_time_mins / 60
         else 0) := by
  unfold batchAccum
  split_ifs <;> first | rfl | simp

lemma foldl_batchAccum_time (recs : List EvalRecord) :
    ∀ b0 : BatchEval,
      (recs.foldl batchAccum b0).avg_time_fufillment =
        b0.avg_time_fufillment +
          (recs.map (fun r =>
            if r.max_man_time_mins ≠ 0 then
              (if r.time_to_first_contact_s = 0 then
                r.max_man_time_mins * 2 * 60
               else r.time_to_first_contact_s) / r.max_man_time_mins / 60
            else 0)).sum := by
  induction recs with
  | nil => intro b0; simp
  | cons r rest ih =>
      intro b0
      rw [List.foldl_cons, ih, batchAccum_time, List.map_cons, List.sum_cons]
      ring

/-- C7: `create_batch_eval` on a non-empty index list averages the
time-fulfillment ratios, substituting twice the maneuver time budget
for every trial whose time-to-first-contact was never reached (stored
as 0) — the substituted ratio is exactly 2 — and on an empty index list
it hits an uncaught division by zero (modelled as `none`). -/
theorem C7_create_batch_eval_time_fulfillment (evals : List EvalRecord)
    (indices : List ℕ) (recs : List EvalRecord)
    (hrecs : indices.mapM (fun i => evals.get? i) = some recs)
    (hbud : ∀ r ∈ recs, r.max_man_time_mins ≠ 0) :
    (indices = [] → create_batch_eval evals indices = none) ∧
    (indices ≠ [] → ∃ b, create_batch_eval evals indices = some b ∧
      b.avg_time_fufillment =
        (recs.map timeFulfillRatioOf).sum / (indices.length : ℚ) ∧
      ∀ r ∈ recs, r.time_to_first_contact_s = 0 →
        timeFulfillRatioOf r = 2) := by
  constructor
  · intro h
    subst h
    rfl
  · intro h
    have hlen : ¬ indices.length = 0 := fun hh =>
      h (List.length_eq_zero.mp hh)
    have hmaps : (recs.map (fun r =>
        if r.max_man_time_mins ≠ 0 then
          (if r.time_to_first_contact_s = 0 then
            r.max_man_time_mins * 2 * 60
           else r.time_to_first_contact_s) / r.max_man_time_mins / 60
        else 0)) = recs.map timeFulfillRatioOf := by
      refine List.map_congr_left ?_
      intro r hr
      rw [if_pos (hbud r hr)]
      unfold timeFulfillRatioOf
      rw [div_div]
    unfold create_batch_eval
    rw [hrecs, Option.some_bind, if_neg hlen]
    refine ⟨_, rfl, ?_, ?_⟩
    · show (recs.foldl batchAccum {}).avg_time_fufillment /
        (indices.length : ℚ) =
        (recs.map timeFulfillRatioOf).sum / (indices.length : ℚ)
      rw [foldl_batchAccum_time, hmaps]
      norm_num
    · intro r hr ht
      have hm := hbud r hr
      unfold timeFulfillRatioOf
      rw [if_pos ht, div_eq_iff (mul_ne_zero hm (by norm_num))]
      ring

/-- C7 witness: a two-trial batch with budgets 1 and 2 minutes, the
second trial never reaching contact: the average substitutes ratio 2
for it, and the empty index list fails. -/
theorem C7_create_batch_eval_time_fulfillment_witness :
    (create_batch_eval
      [{ max_man_time_mins := 1, time_to_first_contact_s := 30 },
       { max_man_time_mins := 2, time_to_first_contact_s := 0 }] [] = none) ∧
    (∃ b, create_batch_eval
      [{ max_man_time_mins := 1, time_to_first_contact_s := 30 },
       { max_man_time_mins := 2, time_to_first_contact_s := 0 }] [0, 1] =
        some b ∧
      b.avg_time_fufillment =
        (([{ max_man_time_mins := 1, time_to_first_contact_s := 30 },
           { max_man_time_mins := 2, time_to_first_contact_s := 0 }] :
            List EvalRecord).map timeFulfillRatioOf).sum /
          (([0, 1] : List ℕ).length : ℚ) ∧
      ∀ r ∈ ([{ max_man_time_mins := 1, time_to_first_contact_s := 30 },
              { max_man_time_mins := 2, time_to_first_contact_s := 0 }] :
               List EvalRecord), r.time_to_first_contact_s = 0 →
        timeFulfillRatioOf r = 2) := by
  have hbud : ∀ r ∈
      ([{ max_man_time_mins := 1, time_to_first_contact_s := 30 },
        { max_man_time_mins := 2, time_to_first_contact_s := 0 }] :
        List EvalRecord), r.max_man_time_mins ≠ 0 := by
    intro r hr
    rcases List.mem_cons.mp hr with h1 | h1
    · subst h1; norm_num
    · rcases List.mem_cons.mp h1 with h2 | h2
      · subst h2; norm_num
      · exact absurd h2 (List.not_mem_nil r)
  have h := C7_create_batch_eval_time_fulfillment
    [{ max_man_time_mins := 1, time_to_first_contact_s := 30 },
     { max_man_time_mins := 2, time_to_first_contact_s := 0 }] [0, 1]
    [{ max_man_time_mins := 1, time_to_first_contact_s := 30 },
     { max_man_time_mins := 2, time_to_first_contact_s := 0 }]
    rfl hbud
  have h0 := C7_create_batch_eval_time_fulfillment
    [{ max_man_time_mins := 1, time_to_first_contact_s := 30 },
     { max_man_time_mins := 2, time_to_first_contact_s := 0 }] []
    [] rfl (by intro r hr; exact absurd hr (List.not_mem_nil r))
  exact ⟨h0.1 rfl, h.2 (by simp)⟩

lemma fmod_nonneg_lt (a b : ℚ) (hb : 0 < b) : 0 ≤ fmod a b ∧ fmod a b < b := by
  have heq : fmod a b = b * Int.fract (a / b) := by
    unfold fmod
    rw [Int.fract, mul_sub, mul_div_cancel₀ a (ne_of_gt hb)]
  rw [heq]
  exact ⟨mul_nonneg hb.le (Int.fract_nonneg _),
    mul_lt_of_lt_one_right hb (Int.fract_lt_one _)⟩

lemma manual_fold_preserves (ms : List (ManualName × ℚ)) (k : JProp)
    (hk1 : k ≠ JProp.throttle_cmd) (hk2 : k ≠ JProp.mixture_cmd) :
    ∀ m : Cmds, getCmd (ms.foldl (fun m p =>
      let jp := convert_to_jsbsim_prop_val p.1 p.2
      setCmd m jp.1 jp.2) m) k = getCmd m k := by
  induction ms with
  | nil => intro m; rfl
  | cons p rest ih =>
      intro m
      rw [List.foldl_cons, ih]
      obtain ⟨name, v⟩ := p
      cases name
      · exact getCmd_setCmd_ne m k JProp.throttle_cmd _ hk1
      · exact getCmd_setCmd_ne m k JProp.mixture_cmd _ hk2

lemma apply_manual_preserves (ins : Instruction) (m : Cmds) (k : JProp)
    (hk1 : k ≠ JProp.throttle_cmd) (hk2 : k ≠ JProp.mixture_cmd) :
    getCmd (apply_manual ins m) k = getCmd m k := by
  unfold apply_manual
  cases ins.manual with
  | none => rfl
  | some ms => exact manual_fold_preserves ms k hk1 hk2 m

lemma apply_wings_preserves (ins : Instruction) (m : Cmds) (k : JProp)
    (hk : k ≠ JProp.ap_hold_straight_and_level) :
    getCmd (apply_wings ins m) k = getCmd m k := by
  unfold apply_wings
  cases ins.wings_level with
  | none => exact getCmd_setCmd_ne m k JProp.ap_hold_straight_and_level _ hk
  | some w => exact getCmd_setCmd_ne m k JProp.ap_hold_straight_and_level _ hk

lemma cid_action_some (st : ControlInterfaceState) (sim : SimState)
    (haCmds : Cmds) (ha2 : FGAPControlSubsystem)
    (hEq : st.ha.action sim (resolve_des_alt st.current_instruction sim).1
      (resolve_des_hdg st.current_instruction sim).1 = some (haCmds, ha2)) :
    st.action sim = some
      (apply_manual st.current_instruction
        (apply_wings st.current_instruction
          (haCmds.foldl (fun m p => setCmd m p.1 p.2) [])),
       { st with
          cur_eval := st.update_eval sim
            (resolve_des_alt st.current_instruction sim).1
            (resolve_des_hdg st.current_instruction sim).1,
          ha := ha2,
          steps_total := st.steps_total + 1,
          instr_steps := st.instr_steps + 1 },
       (resolve_des_alt st.current_instruction sim).2 ++
         (resolve_des_hdg st.current_instruction sim).2) := by
  simp only [ControlInterfaceState.action, hEq, Option.map_some']

/-- C9: when the current instruction lacks the altitude (resp. heading)
field, `ControlInterfaceDefault.action` substitutes the simulator's
current value for that axis, emits the corresponding user-visible
warning, and still returns a command map whose setpoint for that axis
is the substituted simulator value — the tick never fails.  (The
simulator's reported heading is a compass heading, at most 360, which
keeps the inner heading assertion satisfied.) -/
theorem C9_missing_instruction_field (st : ControlInterfaceState)
    (sim : SimState) (hhdg : sim.heading_deg ≤ 360) :
    (st.current_instruction.altitude = none →
      ∃ cmds st2 ws, st.action sim = some (cmds, st2, ws) ∧
        CIWarning.no_altitude_hold ∈ ws ∧
        getCmd cmds JProp.ap_altitude_setpoint = some sim.altitude_sl_ft) ∧
    (st.current_instruction.heading = none →
      ∃ cmds st2 ws, st.action sim = some (cmds, st2, ws) ∧
        CIWarning.no_heading_hold ∈ ws ∧
        getCmd cmds JProp.ap_heading_setpoint = some sim.heading_deg) := by
  have hdle : (resolve_des_hdg st.current_instruction sim).1 ≤ 360 := by
    unfold resolve_des_hdg
    cases hh : st.current_instruction.heading with
    | none => exact hhdg
    | some hval => exact le_of_lt (fmod_nonneg_lt hval 360 (by norm_num)).2
  obtain ⟨thr, hEq⟩ := fgap_action_eq st.ha sim
    (resolve_des_alt st.current_instruction sim).1
    (resolve_des_hdg st.current_instruction sim).1 hdle
  have hact := cid_action_some st sim _ _ hEq
  have hget_alt : getCmd (apply_manual st.current_instruction
      (apply_wings st.current_instruction
        (([(JProp.ap_hold_heading, 1),
           (JProp.ap_heading_setpoint,
             (resolve_des_hdg st.current_instruction sim).1),
           (JProp.ap_hold_altitude, 1),
           (JProp.ap_altitude_setpoint,
             (resolve_des_alt st.current_instruction sim).1),
           (JProp.throttle_cmd, thr), (JProp.mixture_cmd, 0.8)] :
            Cmds).foldl (fun m p => setCmd m p.1 p.2) [])))
      JProp.ap_altitude_setpoint =
      some (resolve_des_alt st.current_instruction sim).1 := by
    rw [apply_manual_preserves _ _ _ (by simp) (by simp),
      apply_wings_preserves _ _ _ (by simp)]
    rfl
  have hget_hdg : getCmd (apply_manual st.current_instruction
      (apply_wings st.current_instruction
        (([(JProp.ap_hold_heading, 1),
           (JProp.ap_heading_setpoint,
             (resolve_des_hdg st.current_instruction sim).1),
           (JProp.ap_hold_altitude, 1),
           (JProp.ap_altitude_setpoint,
             (resolve_des_alt st.current_instruction sim).1),
           (JProp.throttle_cmd, thr), (JProp.mixture_cmd, 0.8)] :
            Cmds).foldl (fun m p => setCmd m p.1 p.2) [])))
      JProp.ap_heading_setpoint =
      some (resolve_des_hdg st.current_instruction sim).1 := by
    rw [apply_manual_preserves _ _ _ (by simp) (by simp),
      apply_wings_preserves _ _ _ (by simp)]
    rfl
  constructor
  · intro halt
    have hra : resolve_des_alt st.current_instruction sim =
        (sim.altitude_sl_ft, [CIWarning.no_altitude_hold]) := by
      unfold resolve_des_alt
      rw [halt]
    refine ⟨_, _, _, hact, ?_, ?_⟩
    · rw [hra]
      simp
    · rw [hget_alt, hra]
  · intro hh
    have hrh : resolve_des_hdg st.current_instruction sim =
        (sim.heading_deg, [CIWarning.no_heading_hold]) := by
      unfold resolve_des_hdg
      rw [hh]
    refine ⟨_, _, _, hact, ?_, ?_⟩
    · rw [hrh]
      simp
    · rw [hget_hdg, hrh]

/-- C9 witness: an instruction with neither altitude nor heading, on a
simulator at 5000 ft heading 90: the tick succeeds, both warnings are
emitted, and both setpoints equal the simulator's current values. -/
theorem C9_missing_instruction_field_witness :
    (∃ cmds st2 ws,
      ControlInterfaceState.action { current_instruction := {} }
        ⟨0, 5000, 90, 100, 0, 0, 1, 5⟩ = some (cmds, st2, ws) ∧
      CIWarning.no_altitude_hold ∈ ws ∧
      getCmd cmds JProp.ap_altitude_setpoint = some 5000) ∧
    (∃ cmds st2 ws,
      ControlInterfaceState.action { current_instruction := {} }
        ⟨0, 5000, 90, 100, 0, 0, 1, 5⟩ = some (cmds, st2, ws) ∧
      CIWarning.no_heading_hold ∈ ws ∧
      getCmd cmds JProp.ap_heading_setpoint = some 90) := by
  have h := C9_missing_instruction_field { current_instruction := {} }
    ⟨0, 5000, 90, 100, 0, 0, 1, 5⟩ (by norm_num)
  exact ⟨h.1 rfl, h.2 rfl⟩
